import Mathlib

/-!
# cmd-nsmd: connection orchestration core

A shallow embedding of `pkg/model/model.go`, `pkg/local/endpoint_selector_service.go`
and `pkg/local/forwarder_service.go`, with the properties of the specification
stated and settled over it.

Conventions.
* A Go `uint64` is a `Nat` kept below `2 ^ 64`; every operation that can overflow
  reduces modulo `2 ^ 64` explicitly.
* A Go `error` is its message (`Error := String`); a nil error is `none`.
* A Go string is a Lean `String`.  Where the Go code walks the bytes of a string
  (`strconv.ParseUint`), the walk is over the characters: every byte of a multi-byte
  rune is at least `0x80` and is rejected exactly as the rune is.
* Calls that leave the package (`ProcessNext`, `GetEndpoint`, ...) are fields of an
  environment record acting on an abstract world state; each call is also appended to
  a log of events, most recent first.
-/

namespace Nsmd

/-! ## `strconv` as used by the ID generator -/

/-- Error kinds of `strconv.ParseUint`: `strconv.ErrSyntax` and `strconv.ErrRange`. -/
inductive NumError
  | ErrSyntax
  | ErrRange
  deriving DecidableEq, Repr

/-- Largest `uint64`. -/
def maxUint64 : Nat := 2 ^ 64 - 1

/-- Digit table of `strconv`: `"0123456789abcdefghijklmnopqrstuvwxyz"`. -/
def digits : List Char := "0123456789abcdefghijklmnopqrstuvwxyz".toList

/-- Table lookup `digits[d]`. -/
def digitChar (d : Nat) : Char := digits.getD d '0'

/-- The loop of `strconv.formatBits` for a base that is a power of two, here 16
(`shift = 4`, `m = 15`): while `u >= 16` emit `digits[u & 15]` in front of what was
written and shift `u` right by four bits; finally emit `digits[u]`.  The recursion is
on the number of free places of the buffer. -/
def formatBits : Nat → Nat → List Char → List Char
  | 0, u, acc => digitChar u :: acc
  | free + 1, u, acc =>
    if 16 ≤ u then formatBits free (u / 16) (digitChar (u % 16) :: acc)
    else digitChar u :: acc

/-- Function `strconv.FormatUint(u, 16)`.  The buffer of `formatBits` has 65 places. -/
def FormatUint (u : Nat) : String := String.mk (formatBits 64 u [])

/-- Value of one byte as a digit in `strconv.ParseUint`: `'0'..'9'` give `c - '0'`,
and a byte whose lower-cased form `c | 0x20` is in `'a'..'z'` gives
`lower(c) - 'a' + 10`; anything else is no digit. -/
def digitValue (c : Char) : Option Nat :=
  let b := c.toNat
  if 48 ≤ b ∧ b ≤ 57 then some (b - 48)
  else if 97 ≤ (b ||| 32) ∧ (b ||| 32) ≤ 122 then some ((b ||| 32) - 97 + 10)
  else none

/-- The digit loop of `strconv.ParseUint(s, 16, 64)`, with `cutoff = maxUint64/16 + 1`
and `maxVal = 1<<64 - 1`.  A byte that is no digit, or a digit `>= 16`, ends the loop
with `(0, ErrSyntax)`; an overflow of `n*16` or of `n*16 + d` ends it with
`(maxVal, ErrRange)`. -/
def parseLoop : List Char → Nat → Nat × Option NumError
  | [], n => (n, none)
  | c :: cs, n =>
    match digitValue c with
    | none => (0, some NumError.ErrSyntax)
    | some d =>
      if 16 ≤ d then (0, some NumError.ErrSyntax)
      else if maxUint64 / 16 + 1 ≤ n then (maxUint64, some NumError.ErrRange)
      else
        let n16 := (n * 16) % 2 ^ 64
        let n1 := (n16 + d) % 2 ^ 64
        if n1 < n16 ∨ maxUint64 < n1 then (maxUint64, some NumError.ErrRange)
        else parseLoop cs n1

/-- Function `strconv.ParseUint(s, 16, 64)`: the value and the error, as Go returns them
(the value is `0` next to `ErrSyntax` and `maxUint64` next to `ErrRange`). -/
def ParseUint (s : String) : Nat × Option NumError :=
  if s.toList = [] then (0, some NumError.ErrSyntax) else parseLoop s.toList 0

/-! ## `pkg/model/model.go`: the ID generator -/

/-- The fields of `model` that the ID generator reads and writes. -/
structure model where
  /-- Field `lastConnectionID uint64`. -/
  lastConnectionID : Nat
  deriving DecidableEq, Repr

/-- Method `model.ConnectionID`: increment the counter (a `uint64`, so modulo `2^64`)
and return it in base 16, together with the model after the call. -/
def model.ConnectionID (m : model) : String × model :=
  let m1 := { m with lastConnectionID := (m.lastConnectionID + 1) % 2 ^ 64 }
  (FormatUint m1.lastConnectionID, m1)

/-- Method `model.CorrectIDGenerator`: parse `id`; a parse error is logged and the
function goes on with the value `ParseUint` returned next to it; the counter is raised
to the value when it is below it. -/
def model.CorrectIDGenerator (m : model) (id : String) : model :=
  let value := (ParseUint id).1
  if m.lastConnectionID < value then { m with lastConnectionID := value } else m

/-- One call on the generator. -/
inductive Call
  | ConnectionID
  | CorrectIDGenerator (id : String)
  deriving DecidableEq, Repr

/-- Calls executed one after another under the mutex: the `ConnectionID` results in call
order, and the model after the last call. -/
def runCalls : model → List Call → List String × model
  | m, [] => ([], m)
  | m, Call.ConnectionID :: cs =>
    let r := m.ConnectionID
    let rest := runCalls r.2 cs
    (r.1 :: rest.1, rest.2)
  | m, Call.CorrectIDGenerator id :: cs => runCalls (m.CorrectIDGenerator id) cs

/-- No `ConnectionID` call of the sequence starts with the counter at `2^64 - 1`. -/
def noWrap : model → List Call → Bool
  | _, [] => true
  | m, Call.ConnectionID :: cs =>
    decide (m.lastConnectionID ≠ maxUint64) && noWrap m.ConnectionID.2 cs
  | m, Call.CorrectIDGenerator id :: cs => noWrap (m.CorrectIDGenerator id) cs

/-- Spec-side reading of a string as a base-16 number: most significant digit first. -/
def hexValue (l : List Char) (n : Nat) : Nat :=
  l.foldl (fun acc c => acc * 16 + (digitValue c).getD 0) n

/-- A character that `ParseUint` accepts as a base-16 digit. -/
def isHexDigit (c : Char) : Bool :=
  match digitValue c with
  | some d => decide (d < 16)
  | none => false

/-- Spec-side notion "`s` is a valid base-16 representation of the 64-bit unsigned
number `v`": non-empty, every character a hexadecimal digit, value `v` below `2^64`. -/
def IsHexOf (s : String) (v : Nat) : Prop :=
  s.toList ≠ [] ∧ (∀ c ∈ s.toList, isHexDigit c = true) ∧
    hexValue s.toList 0 = v ∧ v < 2 ^ 64

instance (s : String) (v : Nat) : Decidable (IsHexOf s v) := by
  unfold IsHexOf; infer_instance


/-! ## Types of the packages the services use

The declarations of these types are outside the files embedded here; they are written
down with the fields the code reads and writes. -/

/-- A Go `error`, as its message. -/
abbrev Error := String

/-- Result of a call that returns `(value, error)` and whose value is only looked at
when the error is nil. -/
inductive Result (α : Type)
  | ok (a : α)
  | error (err : Error)
  deriving DecidableEq, Repr

/-- Message `networkservice.Mechanism`: class, type and the parameter map.  The map is a
list of entries; a well-formed map has distinct keys. -/
structure Mechanism where
  Cls : String
  MechanismType : String
  Parameters : List (String × String)
  deriving DecidableEq, Repr

/-- Message `networkservice.ConnectionContext`, by its content. -/
structure ConnectionContext where
  content : String
  deriving DecidableEq, Repr

/-- Enumeration `networkservice.State`. -/
inductive State
  | UP
  | DOWN
  | REFRESH_REQUESTED
  deriving DecidableEq, Repr

/-- Message `networkservice.PathSegment`. -/
structure PathSegment where
  Name : String
  deriving DecidableEq, Repr

/-- Message `networkservice.Path`; `Index` is a `uint32`. -/
structure Path where
  Index : Nat
  PathSegments : List PathSegment
  deriving DecidableEq, Repr

/-- Message `networkservice.Connection`. -/
structure Connection where
  Id : String
  NetworkService : String
  Mechanism : Option Mechanism
  Context : Option ConnectionContext
  State : State
  Path : Option Path
  deriving DecidableEq, Repr

/-- Message `networkservice.NetworkServiceRequest`. -/
structure NetworkServiceRequest where
  Connection : Option Connection
  MechanismPreferences : List (Option Mechanism)
  deriving DecidableEq, Repr

/-- Message `registry.NetworkServiceManager`. -/
structure NetworkServiceManager where
  Name : String
  Url : String
  deriving DecidableEq, Repr

/-- Message `registry.NSERegistration`, by the endpoint name and the manager. -/
structure NSERegistration where
  EndpointName : String
  NetworkServiceManager : Option NetworkServiceManager
  deriving DecidableEq, Repr

/-- Message `crossconnect.CrossConnect`.  Modelled from the spec: the cross-connect
descriptor holds the source and the destination connection object. -/
structure CrossConnect where
  Source : Connection
  Destination : Connection
  deriving DecidableEq, Repr

/-- Modelled from the spec: the states of a `ClientConnection`, of which the spec
requires `Healing`, a steady state and names a closing state; the declaration of
`model.ClientConnectionState` is not among the embedded files. -/
inductive ClientConnectionState
  | ClientConnectionReady
  | ClientConnectionHealing
  | ClientConnectionClosing
  deriving DecidableEq, Repr

/-- Type `model.ForwarderState`, an `int8`. -/
abbrev ForwarderState := Int

/-- Constant `ForwarderStateNone`: there is no active connection in the forwarder. -/
def ForwarderStateNone : ForwarderState := 0

/-- Constant `ForwarderStateReady`: there is an active connection in the forwarder. -/
def ForwarderStateReady : ForwarderState := 1

/-- Type `model.Forwarder`. -/
structure Forwarder where
  RegisteredName : String
  SocketLocation : String
  MechanismsConfigured : Bool
  deriving DecidableEq, Repr

/-- Modelled from the spec: the record `model.ClientConnection` (its declaration is not
among the embedded files): connection ID, requested network service name, connection
state, selected endpoint (nil until selection succeeds), remote manager, the
forwarder's registered name and state, and the cross-connect descriptor. -/
structure ClientConnection where
  ConnectionID : String
  NetworkService : String
  Xcon : CrossConnect
  RemoteNsm : Option NetworkServiceManager
  Endpoint : Option NSERegistration
  ForwarderRegisteredName : String
  ConnectionState : ClientConnectionState
  ForwarderState : ForwarderState
  deriving DecidableEq, Repr

/-- Modelled from the spec: an entry of the endpoint collection of the registry
(`model.Endpoint`, declared outside the embedded files): its name and socket location. -/
structure Endpoint where
  Name : String
  SocketLocation : String
  deriving DecidableEq, Repr

/-- The exclusion map `map[registry.EndpointNSMName]*registry.NSERegistration`: a list of
bindings (to registrations that are not nil) in which the first binding of a key is the
current one.  A key that is not bound reads as nil. -/
abbrev IgnoreMap := List (String × NSERegistration)

/-- Map assignment `m[k] = v`. -/
def IgnoreMap.set (m : IgnoreMap) (k : String) (v : NSERegistration) : IgnoreMap :=
  (k, v) :: m

/-- The keys of the exclusion map. -/
def IgnoreMap.keys (m : IgnoreMap) : List String := m.map Prod.fst

/-- The values the services attach to and read from the call context. -/
structure Ctx where
  /-- Value of `common.Forwarder(ctx)`. -/
  Forwarder : Option Forwarder
  /-- Value of `common.Endpoint(ctx)`. -/
  Endpoint : Option NSERegistration
  /-- Value of `common.RemoteMechanisms(ctx)`. -/
  RemoteMechanisms : List (Option Mechanism)
  deriving DecidableEq, Repr

/-- Handle of a client obtained from the service registry. -/
abbrev Client := Nat

/-- Handle of a `*grpc.ClientConn`. -/
abbrev GrpcConn := Nat

/-- Calls that leave the two services, in the log of a run. -/
inductive Event
  | GetEndpoint (nseConn : Option Connection) (ignoreEndpoints : IgnoreMap)
      (result : Result NSERegistration)
  | ProcessNext (ctx : Ctx) (request : NetworkServiceRequest) (err : Option Error)
  | ProcessClose (ctx : Ctx) (conn : Option Connection) (err : Option Error)
  | EndpointConnection (endpoint : Endpoint) (err : Option Error)
  | ForwarderRequest (client : Client) (request : NetworkServiceRequest) (err : Option Error)
  | SID (id : String)
  | ForwarderConnection (fwd : Option Forwarder) (err : Option Error)
  | ForwarderClose (client : Client) (xcon : CrossConnect) (err : Option Error)
  | ConnClose (conn : GrpcConn)
  deriving DecidableEq, Repr

/-- What the services call outside their package, over a world state `W` that the calls
may change: the endpoint manager, the pipeline primitives, the caller's context, the
helpers of the API messages, the registry and the service registry. -/
structure Env (W : Type) where
  /-- Method `nseManager.GetEndpoint(ctx, nseConn, ignoreEndpoints)`; a nil error comes
  with a registration. -/
  GetEndpoint : W → Option Connection → IgnoreMap → Result NSERegistration × W
  /-- Method `nseManager.IsLocalEndpoint(endpoint)`. -/
  IsLocalEndpoint : W → Option NSERegistration → Bool
  /-- Function `common.ProcessNext(ctx, request)`: connection, error, world after. -/
  ProcessNext : W → Ctx → NetworkServiceRequest → (Option Connection × Option Error) × W
  /-- Function `common.ProcessClose(ctx, conn)`: value, error, world after. -/
  ProcessClose : W → Ctx → Option Connection → (Option Unit × Option Error) × W
  /-- Method `Err()` of the caller's (parent) context: non-nil once it is done. -/
  ctxErr : W → Option Error
  /-- Method `GetEndpointNSMName` of a registration (nil-safe). -/
  GetEndpointNSMName : Option NSERegistration → String
  /-- Method `Connection.IsRemote`. -/
  IsRemote : Connection → Bool
  /-- Method `Connection.IsComplete`: nil when the connection is complete. -/
  IsComplete : Connection → Option Error
  /-- Method `Connection.UpdateContext(context)`: the receiver after the call and the
  error. -/
  UpdateContext : Connection → Option ConnectionContext → Connection × Option Error
  /-- Method `model.GetEndpointsByNetworkService(name)`. -/
  GetEndpointsByNetworkService : W → String → List Endpoint
  /-- Method `model.GetEndpoint(name)`. -/
  GetEndpoint_ : W → String → Option Endpoint
  /-- Method `Endpoint.EndpointName()`. -/
  EndpointName : Endpoint → String
  /-- Method `serviceRegistry.EndpointConnection(ctx, endpoint)`. -/
  EndpointConnection : W → Endpoint → Result Client × W
  /-- Method `Request` of a forwarder client. -/
  ClientRequest : W → Client → Ctx → NetworkServiceRequest →
    (Option Connection × Option Error) × W
  /-- Method `serviceRegistry.SIDAllocator().SID(id)`. -/
  SID : W → String → String × W
  /-- Method `model.GetForwarder(name)`. -/
  GetForwarder : W → String → Option Forwarder
  /-- Method `serviceRegistry.ForwarderConnection(ctx, fwd)`. -/
  ForwarderConnection : W → Option Forwarder → Result (Client × Option GrpcConn) × W
  /-- Method `Close` of a forwarder client. -/
  ClientClose : W → Client → CrossConnect → Option Error × W
  /-- Method `Close` of a `*grpc.ClientConn`. -/
  ConnClose : W → GrpcConn → W
  /-- Formatting of a request by `%v`. -/
  formatRequest : NetworkServiceRequest → String
  /-- Constant `srv6.MECHANISM`. -/
  srv6MECHANISM : String
  /-- Constant `srv6.SrcBSID`. -/
  srv6SrcBSID : String
  /-- Constant `srv6.SrcLocalSID`. -/
  srv6SrcLocalSID : String

/-- The connection object a `Request` hands back: nil, the very object that
`request.Connection` points to, or the object that `ProcessNext` returned. -/
inductive ConnRef
  | null
  | requestConnection
  | fromNext (c : Connection)
  deriving DecidableEq, Repr

/-- How a call ends: it returns, it stops on a nil-pointer dereference, or it is still
in its loop when the bound of the model is reached. -/
inductive Outcome (α : Type)
  | returned (a : α)
  | panicked
  | running
  deriving DecidableEq, Repr

/-- Formatting of an error by `%v`: a nil error prints as `<nil>`. -/
def fmtError : Option Error → String
  | some e => e
  | none => "<nil>"

/-- Getter `GetType` of a mechanism pointer (nil-safe). -/
def GetType : Option Mechanism → String
  | some m => m.MechanismType
  | none => ""

/-- Getter `GetParameters` of a mechanism pointer (nil-safe). -/
def GetParameters : Option Mechanism → List (String × String)
  | some m => m.Parameters
  | none => []

/-- Map read `m[k]` on a parameter map: the empty string when the key is not bound. -/
def paramAt (m : List (String × String)) (k : String) : String :=
  (m.lookup k).getD ""

/-- Equality of two parameter maps as `proto.Equal` decides it: the same number of
entries, and every key of the first bound to the same value in the second. -/
def mapEqual (a b : List (String × String)) : Bool :=
  decide (a.length = b.length) && a.all (fun kv => decide (b.lookup kv.1 = some kv.2))

/-- Method `Mechanism.Equals`, which is `proto.Equal`: a nil message equals only nil;
two messages are equal when all their fields are. -/
def Mechanism.Equals (t : Mechanism) (mechanism : Option Mechanism) : Bool :=
  match mechanism with
  | none => false
  | some m => decide (t.Cls = m.Cls) && decide (t.MechanismType = m.MechanismType) &&
      mapEqual t.Parameters m.Parameters

/-- Function `proto.Equal` on two connection contexts. -/
def protoEqualContext (a b : Option ConnectionContext) : Bool := decide (a = b)

/-- Getter `request.GetConnection().GetContext()` and the like (nil-safe). -/
def GetContext : Option Connection → Option ConnectionContext
  | some c => c.Context
  | none => none

/-- Getter `GetNetworkService` of a connection pointer (nil-safe). -/
def GetNetworkService : Option Connection → String
  | some c => c.NetworkService
  | none => ""

/-- Getter `GetMechanism` of a connection pointer (nil-safe). -/
def GetMechanism : Option Connection → Option Mechanism
  | some c => c.Mechanism
  | none => none

/-- Getter `GetNetworkServiceManager` of a registration pointer (nil-safe). -/
def GetNetworkServiceManager : Option NSERegistration → Option NetworkServiceManager
  | some e => e.NetworkServiceManager
  | none => none

/-! ## `pkg/local/endpoint_selector_service.go` -/

/-- What a run of the endpoint selector works on: the world behind the outside calls,
the log of outside calls (most recent first), the caller's request, the tracked
connection bound to the call, the exclusion map and the `lastError` variable. -/
structure SelState (W : Type) where
  world : W
  log : List Event
  request : NetworkServiceRequest
  clientConnection : ClientConnection
  ignoreEndpoints : IgnoreMap
  lastError : Option Error
  deriving DecidableEq

/-- Method `endpointSelectorService.findMechanism`: the first preference of the given
type. -/
def findMechanism : List (Option Mechanism) → String → Option Mechanism
  | [], _ => none
  | m :: ms, mechanismType =>
    if GetType m = mechanismType then m else findMechanism ms mechanismType

/-- Method `endpointSelectorService.checkNeedNSERequest` (the forwarder argument is not
read by the body). -/
def checkNeedNSERequest {W : Type} (env : Env W) (request : NetworkServiceRequest)
    (existingCC : ClientConnection) : Bool :=
  if !protoEqualContext (GetContext request.Connection) existingCC.Xcon.Source.Context then
    true
  else
    let dst := existingCC.Xcon.Destination
    if env.IsRemote dst then
      let dstM := dst.Mechanism
      match findMechanism request.MechanismPreferences (GetType dstM) with
      | some reqM =>
        if reqM.Parameters.any (fun kv => decide (kv.2 ≠ paramAt (GetParameters dstM) kv.1)) then
          true
        else if !reqM.Equals dstM then true
        else false
      | none => true
    else false

/-- Method `endpointSelectorService.checkNSEUpdateIsRequired`. -/
def checkNSEUpdateIsRequired {W : Type} (env : Env W) (ctx : Ctx) (st : SelState W) :
    Bool × SelState W :=
  if st.clientConnection.ConnectionState = ClientConnectionState.ClientConnectionHealing then
    if GetNetworkService st.request.Connection ≠ st.clientConnection.NetworkService then
      let r := env.ProcessClose st.world ctx st.request.Connection
      (true, { st with world := r.2,
                       log := Event.ProcessClose ctx st.request.Connection r.1.2 :: st.log })
    else
      (checkNeedNSERequest env st.request st.clientConnection, st)
  else (false, st)

/-- Method `endpointSelectorService.updateConnectionContext`: the source connection
after the call and the error. -/
def updateConnectionContext {W : Type} (env : Env W) (source destination : Connection) :
    Connection × Option Error :=
  match env.IsComplete destination with
  | some err => (source, some err)
  | none => env.UpdateContext source destination.Context

/-- Method `endpointSelectorService.checkUpdateConnectionContext`.  With a nil
`request.Connection` and a complete destination the receiver of `UpdateContext` is
nil. -/
def checkUpdateConnectionContext {W : Type} (env : Env W) (ctx : Ctx) (st : SelState W) :
    Outcome (ConnRef × Option Error) × SelState W :=
  let cc := st.clientConnection
  let cc1 := { cc with Xcon := { cc.Xcon with
    Source := { cc.Xcon.Source with Mechanism := GetMechanism st.request.Connection,
                                    State := State.UP } } }
  let st1 := { st with clientConnection := cc1 }
  let failed (st2 : SelState W) (err : Error) : Outcome (ConnRef × Option Error) × SelState W :=
    let err1 := "NSM:(7.3) Failed to update source connection context: " ++ err
    let r := env.ProcessClose st2.world ctx st2.request.Connection
    (Outcome.returned (ConnRef.null, some err1),
      { st2 with world := r.2,
                 log := Event.ProcessClose ctx st2.request.Connection r.1.2 :: st2.log })
  let succeeded (st2 : SelState W) : Outcome (ConnRef × Option Error) × SelState W :=
    if !env.IsLocalEndpoint st2.world cc1.Endpoint then
      (Outcome.returned (ConnRef.requestConnection, none),
        { st2 with clientConnection :=
            { cc1 with RemoteNsm := GetNetworkServiceManager cc1.Endpoint } })
    else (Outcome.returned (ConnRef.requestConnection, none), st2)
  match st.request.Connection with
  | none =>
    match env.IsComplete cc1.Xcon.Destination with
    | some err => failed st1 err
    | none => (Outcome.panicked, st1)
  | some source =>
    let r := updateConnectionContext env source cc1.Xcon.Destination
    let st2 := { st1 with request := { st1.request with Connection := some r.1 } }
    match r.2 with
    | some err => failed st2 err
    | none => succeeded st2

/-- The assignment `clientConnection.Xcon.Destination.Id = "-"`. -/
def resetDestinationId (cc : ClientConnection) : ClientConnection :=
  { cc with Xcon := { cc.Xcon with Destination := { cc.Xcon.Destination with Id := "-" } } }

/-- Method `endpointSelectorService.selectEndpoint`. -/
def selectEndpoint {W : Type} (env : Env W) (st : SelState W) (nseConn : Option Connection) :
    Result NSERegistration × SelState W :=
  let cc := st.clientConnection
  let healing : Option NSERegistration × SelState W :=
    if cc.ConnectionState = ClientConnectionState.ClientConnectionHealing then
      let endpointName := env.GetEndpointNSMName cc.Endpoint
      match cc.Endpoint with
      | some ep =>
        if st.ignoreEndpoints.lookup endpointName = none then (some ep, st)
        else (none, { st with clientConnection := resetDestinationId cc })
      | none => (none, { st with clientConnection := resetDestinationId cc })
    else (none, st)
  let st1 := healing.2
  match healing.1 with
  | none =>
    let r := env.GetEndpoint st1.world nseConn st1.ignoreEndpoints
    (r.1, { st1 with world := r.2,
                     log := Event.GetEndpoint nseConn st1.ignoreEndpoints r.1 :: st1.log })
  | some endpoint => (Result.ok endpoint, st1)

/-- How `prepareRequest` ends: the new request and the endpoint, an error, or a
nil-pointer dereference. -/
inductive Prepared
  | ok (newRequest : NetworkServiceRequest) (endpoint : NSERegistration)
  | failed (err : Error)
  | panicked
  deriving DecidableEq, Repr

/-- The statement `if nseConn.GetContext() == nil { nseConn.Context = &ConnectionContext{} }`
of `prepareRequest`. -/
def ensureContext (conn : Connection) : Connection :=
  if conn.Context = none then { conn with Context := some ⟨""⟩ } else conn

/-- Method `endpointSelectorService.prepareRequest`: clone the request, select the
endpoint, and give the clone's connection an empty context when it has none (which
dereferences the clone's connection). -/
def prepareRequest {W : Type} (env : Env W) (st : SelState W) : Prepared × SelState W :=
  let newRequest := st.request
  let nseConn := newRequest.Connection
  let r := selectEndpoint env st nseConn
  match r.1 with
  | Result.error err => (Prepared.failed err, r.2)
  | Result.ok endpoint =>
    match nseConn with
    | none => (Prepared.panicked, r.2)
    | some conn =>
      (Prepared.ok { newRequest with Connection := some (ensureContext conn) } endpoint, r.2)

/-- Method `endpointSelectorService.checkTimeout` on the parent context. -/
def checkTimeout {W : Type} (env : Env W) (w : W) : Option Error :=
  match env.ctxErr w with
  | some e => some ("NSM:(7.1.0) Context timeout, during find/call NSE... " ++ e)
  | none => none

/-- Method `endpointSelectorService.combineErrors(span, err, lastError)`. -/
def combineErrors (err lastError : Option Error) : ConnRef × Option Error :=
  match lastError with
  | some le => (ConnRef.null, some ("NSM:(7.1.5) " ++ fmtError err ++ ". Last NSE Error: " ++ le))
  | none => (ConnRef.null, err)

/-- One pass through the body of the `for` loop of `Request`. -/
inductive Step (W : Type)
  | next (st : SelState W)
  | done (r : ConnRef × Option Error) (st : SelState W)
  | panicked (st : SelState W)

/-- The statements of `Request` after a successful `ProcessNext`: the endpoint is put on
the tracked connection, and the remote manager too when the endpoint is not local. -/
def recordEndpoint {W : Type} (env : Env W) (w : W) (cc : ClientConnection)
    (endpoint : NSERegistration) : ClientConnection :=
  let cc1 := { cc with Endpoint := some endpoint }
  if !env.IsLocalEndpoint w (some endpoint) then
    { cc1 with RemoteNsm := endpoint.NetworkServiceManager }
  else cc1

/-- The connection pointer that `ProcessNext` returned, as what `Request` hands back. -/
def ConnRef.ofNext : Option Connection → ConnRef
  | some c => ConnRef.fromNext c
  | none => ConnRef.null

/-- The body of the `for` loop of `endpointSelectorService.Request` (one attempt). -/
def attempt {W : Type} (env : Env W) (ctx : Ctx) (st : SelState W) : Step W :=
  let p := prepareRequest env st
  match p.1 with
  | Prepared.failed err => Step.done (combineErrors st.lastError (some err)) p.2
  | Prepared.panicked => Step.panicked p.2
  | Prepared.ok newRequest endpoint =>
    match checkTimeout env p.2.world with
    | some err => Step.done (ConnRef.null, some err) p.2
    | none =>
      let ctx1 := { ctx with Endpoint := some endpoint }
      let r := env.ProcessNext p.2.world ctx1 newRequest
      let st1 := { p.2 with world := r.2,
                            log := Event.ProcessNext ctx1 newRequest r.1.2 :: p.2.log }
      match r.1.2 with
      | some err =>
        Step.next { st1 with
          lastError := some err,
          ignoreEndpoints :=
            st1.ignoreEndpoints.set (env.GetEndpointNSMName (some endpoint)) endpoint }
      | none =>
        Step.done (ConnRef.ofNext r.1.1, none)
          { st1 with
            clientConnection := recordEndpoint env st1.world st1.clientConnection endpoint }

/-- The `for` loop of `endpointSelectorService.Request`, run for at most `bound`
attempts. -/
def requestLoop {W : Type} (env : Env W) (ctx : Ctx) :
    Nat → SelState W → Outcome (ConnRef × Option Error) × SelState W
  | 0, st => (Outcome.running, st)
  | bound + 1, st =>
    match attempt env ctx st with
    | Step.next st1 => requestLoop env ctx bound st1
    | Step.done r st1 => (Outcome.returned r, st1)
    | Step.panicked st1 => (Outcome.panicked, st1)

/-- The state in which `Request` starts: nothing logged, `lastError` nil, the exclusion
map that `common.IgnoredEndpoints(ctx)` gives. -/
def SelState.init {W : Type} (w : W) (request : NetworkServiceRequest)
    (clientConnection : ClientConnection) (ignoreEndpoints : IgnoreMap) : SelState W :=
  { world := w, log := [], request := request, clientConnection := clientConnection,
    ignoreEndpoints := ignoreEndpoints, lastError := none }

/-- Method `endpointSelectorService.Request` on a call whose context binds the tracked
connection `st.clientConnection`. -/
def RequestBound {W : Type} (env : Env W) (bound : Nat) (ctx : Ctx) (st : SelState W) :
    Outcome (ConnRef × Option Error) × SelState W :=
  let u := checkNSEUpdateIsRequired env ctx st
  let requestNSEOnUpdate := u.1
  if u.2.clientConnection.ConnectionState = ClientConnectionState.ClientConnectionHealing
      ∧ requestNSEOnUpdate = false then
    checkUpdateConnectionContext env ctx u.2
  else requestLoop env ctx bound u.2

/-- Method `endpointSelectorService.Request`: without a tracked connection bound to the
context it returns an error at once; the state after the call is given when there is a
tracked connection. -/
def Request {W : Type} (env : Env W) (bound : Nat) (ctx : Ctx) (w : W)
    (request : NetworkServiceRequest) (modelConnection : Option ClientConnection)
    (ignoreEndpoints : IgnoreMap) :
    Outcome (ConnRef × Option Error) × Option (SelState W) :=
  match modelConnection with
  | none => (Outcome.returned (ConnRef.null, some "client connection need to be passed"), none)
  | some clientConnection =>
    let r := RequestBound env bound ctx (SelState.init w request clientConnection ignoreEndpoints)
    (r.1, some r.2)

/-- Method `endpointSelectorService.Close`. -/
def Close {W : Type} (env : Env W) (ctx : Ctx) (w : W) (connection : Option Connection) :
    (Option Unit × Option Error) × W :=
  env.ProcessClose w ctx connection

/-! ## `pkg/local/forwarder_service.go` -/

/-- Constant `forwarderNamePrefix`. -/
def forwarderNamePrefix : String := "forwarder"

/-- What a run of the forwarder service works on: the world behind the outside calls,
the log of outside calls (most recent first), the caller's request, and the tracked
connection bound to the call context (`common.ModelConnection(ctx)`, which may be
nil). -/
structure FwdState (W : Type) where
  world : W
  log : List Event
  request : NetworkServiceRequest
  clientConnection : Option ClientConnection
  deriving DecidableEq

/-- Function `isForwarderRequest`: the path segment at the current index of the request's
connection path has the forwarder name prefix.  `path.Index` is unsigned, so
`path.Index >= 0` holds; a repeated field holds no nil element. -/
def isForwarderRequest (request : NetworkServiceRequest) : Bool :=
  match request.Connection with
  | some conn =>
    match conn.Path with
    | some path =>
      if path.Index < path.PathSegments.length then
        match path.PathSegments.get? path.Index with
        | some segment => forwarderNamePrefix.toList.isPrefixOf segment.Name.toList
        | none => false
      else false
    | none => false
  | none => false

/-- Map assignment `parameters[k] = v` on a parameter map. -/
def setParam (m : List (String × String)) (k v : String) : List (String × String) :=
  (k, v) :: m.filter (fun kv => decide (kv.1 ≠ k))

/-- Method `forwarderService.prepareRemoteMechanisms`: clone the mechanism of the
request's connection and, for an SRv6 mechanism, set the two source SIDs from the
allocator.  `none` stands for a nil-pointer dereference (a nil `request.Connection`, or
an assignment to the parameters of a nil mechanism). -/
def prepareRemoteMechanisms {W : Type} (env : Env W) (st : FwdState W) :
    Option (List (Option Mechanism)) × FwdState W :=
  match st.request.Connection with
  | none => (none, st)
  | some conn =>
    let m := conn.Mechanism
    if GetType m = env.srv6MECHANISM then
      let parameters := GetParameters m
      let s1 := env.SID st.world conn.Id
      let parameters1 := setParam parameters env.srv6SrcBSID s1.1
      let s2 := env.SID s1.2 conn.Id
      let parameters2 := setParam parameters1 env.srv6SrcLocalSID s2.1
      let st1 := { st with world := s2.2,
                           log := Event.SID conn.Id :: Event.SID conn.Id :: st.log }
      match m with
      | none => (none, st1)
      | some mech => (some [some { mech with Parameters := parameters2 }], st1)
    else (some [m], st)

/-- The `for` loop of `forwarderService.Request` over the forwarder candidates, and the
statements after it. -/
def tryForwarders {W : Type} (env : Env W) (ctx : Ctx) :
    List Endpoint → FwdState W → Outcome (ConnRef × Option Error) × FwdState W
  | [], st =>
    (Outcome.returned (ConnRef.null,
      some ("Failed to provide a valid forwarder for request: " ++ env.formatRequest st.request)),
      st)
  | fwdNSE :: rest, st =>
    match env.GetEndpoint_ st.world fwdNSE.Name with
    | none => tryForwarders env ctx rest st
    | some endpoint =>
      let r := env.EndpointConnection st.world endpoint
      match r.1 with
      | Result.error err =>
        tryForwarders env ctx rest
          { st with world := r.2,
                    log := Event.EndpointConnection endpoint (some err) :: st.log }
      | Result.ok fwdClient =>
        let st1 := { st with world := r.2,
                             log := Event.EndpointConnection endpoint none :: st.log }
        let q := env.ClientRequest st1.world fwdClient ctx st1.request
        let st2 := { st1 with world := q.2,
                              log := Event.ForwarderRequest fwdClient st1.request q.1.2 :: st1.log }
        match q.1.2 with
        | some _ => tryForwarders env ctx rest st2
        | none =>
          let st3 := { st2 with request := { st2.request with Connection := q.1.1 } }
          let fwd : Forwarder :=
            { RegisteredName := env.EndpointName endpoint,
              SocketLocation := endpoint.SocketLocation,
              MechanismsConfigured := false }
          let p := prepareRemoteMechanisms env st3
          match p.1 with
          | none => (Outcome.panicked, p.2)
          | some mechanisms =>
            let ctx1 := { ctx with Forwarder := some fwd, RemoteMechanisms := mechanisms }
            let n := env.ProcessNext p.2.world ctx1 p.2.request
            (Outcome.returned (ConnRef.ofNext n.1.1, n.1.2),
              { p.2 with world := n.2,
                         log := Event.ProcessNext ctx1 p.2.request n.1.2 :: p.2.log })

/-- Method `forwarderService.Request`. -/
def forwarderRequest {W : Type} (env : Env W) (ctx : Ctx) (st : FwdState W) :
    Outcome (ConnRef × Option Error) × FwdState W :=
  if isForwarderRequest st.request then
    let n := env.ProcessNext st.world ctx st.request
    (Outcome.returned (ConnRef.ofNext n.1.1, n.1.2),
      { st with world := n.2, log := Event.ProcessNext ctx st.request n.1.2 :: st.log })
  else
    let forwarderServiceName := forwarderNamePrefix ++ "@" ++ "localIP"
    let xconnNSEs := env.GetEndpointsByNetworkService st.world forwarderServiceName
    if xconnNSEs.length = 0 then
      (Outcome.returned (ConnRef.null, some "No forwarders found"), st)
    else tryForwarders env ctx xconnNSEs st

/-- Method `forwarderService.performClose`: the error, and the state and the tracked
connection after the call.  The deferred `conn.Close()` runs when the function returns
after `ForwarderConnection` gave a non-nil transport handle. -/
def performClose {W : Type} (env : Env W) (st : FwdState W) (cc : ClientConnection) :
    Option Error × FwdState W :=
  if cc.ForwarderState ≠ ForwarderStateNone then
    let fwd := env.GetForwarder st.world cc.ForwarderRegisteredName
    let r := env.ForwarderConnection st.world fwd
    match r.1 with
    | Result.error err =>
      (some err, { st with world := r.2,
                           log := Event.ForwarderConnection fwd (some err) :: st.log })
    | Result.ok (forwarderClient, conn) =>
      let st1 := { st with world := r.2,
                           log := Event.ForwarderConnection fwd none :: st.log }
      let q := env.ClientClose st1.world forwarderClient cc.Xcon
      let st2 := { st1 with world := q.2,
                            log := Event.ForwarderClose forwarderClient cc.Xcon q.1 :: st1.log }
      let deferred (s : FwdState W) : FwdState W :=
        match conn with
        | some g => { s with world := env.ConnClose s.world g, log := Event.ConnClose g :: s.log }
        | none => s
      match q.1 with
      | some err => (some err, deferred st2)
      | none =>
        (none, deferred { st2 with
          clientConnection := some { cc with ForwarderState := ForwarderStateNone } })
  else (none, st)

/-- Method `forwarderService.Close`: `ProcessClose` first, then `performClose`, whose
error is only logged; the value and error of `ProcessClose` are returned.  Without a
tracked connection bound to the context, `performClose` dereferences nil. -/
def forwarderClose {W : Type} (env : Env W) (ctx : Ctx) (st : FwdState W)
    (conn : Option Connection) : Outcome (Option Unit × Option Error) × FwdState W :=
  let r := env.ProcessClose st.world ctx conn
  let st1 := { st with world := r.2, log := Event.ProcessClose ctx conn r.1.2 :: st.log }
  match st.clientConnection with
  | none => (Outcome.panicked, st1)
  | some cc =>
    let p := performClose env st1 cc
    (Outcome.returned r.1, p.2)

/-! ## `pkg/model/forwarder.go` -/

/-- Method `Forwarder.clone`: nil for a nil receiver, otherwise a new `Forwarder` with the
three fields of the receiver. -/
def Forwarder.clone (d : Option Forwarder) : Option Forwarder :=
  match d with
  | none => none
  | some f =>
    some { RegisteredName := f.RegisteredName, SocketLocation := f.SocketLocation,
           MechanismsConfigured := f.MechanismsConfigured }

/-- Modelled from the spec: the generic store `baseDomain` behind every entity collection
(its file is not among the embedded ones), here holding forwarders: "a mapping from a
string key to its entity".  The bindings are listed in the order in which a scan visits
them; Go leaves that order unspecified, so every order is a domain.  The store holds
what `clone` returns, as the test `TestAddAndGetFwd` observes. -/
structure baseDomain where
  innerMap : List (String × Forwarder)
  deriving DecidableEq, Repr

/-- Modelled from the spec: constructor `newBase` of the generic store, the empty
mapping. -/
def newBase : baseDomain := { innerMap := [] }

/-- Modelled from the spec: method `baseDomain.store`, "inserts or overwrites by key"; the
clone of the value is what is kept.  The forwarder domain stores no nil value, so the
second case is not reached from it. -/
def baseDomain.store (b : baseDomain) (key : String) (value : Option Forwarder) : baseDomain :=
  match Forwarder.clone value with
  | some v => { innerMap := (key, v) :: b.innerMap.filter (fun kv => decide (kv.1 ≠ key)) }
  | none => { innerMap := b.innerMap.filter (fun kv => decide (kv.1 ≠ key)) }

/-- Modelled from the spec: method `baseDomain.load`, "lookup; absent is not an error":
the clone of the entity bound to the key, or nil. -/
def baseDomain.load (b : baseDomain) (key : String) : Option Forwarder :=
  match b.innerMap.lookup key with
  | some v => Forwarder.clone (some v)
  | none => none

/-- Modelled from the spec: method `baseDomain.delete`, "removes if present; deleting an
absent key is a no-op". -/
def baseDomain.delete (b : baseDomain) (key : String) : baseDomain :=
  { innerMap := b.innerMap.filter (fun kv => decide (kv.1 ≠ key)) }

/-- Modelled from the spec: method `baseDomain.kvRange`, the "selection scan": the
callback is called on the bindings (on a clone of each entity) one after another until
it returns false.  The variables the Go closure captures are the state `s` that the
callback takes and gives back. -/
def baseDomain.kvRangeFrom {σ : Type} (f : String → Forwarder → σ → Bool × σ) :
    List (String × Forwarder) → σ → σ
  | [], s => s
  | (key, value) :: rest, s =>
    match Forwarder.clone (some value) with
    | some v =>
      let r := f key v s
      if r.1 then baseDomain.kvRangeFrom f rest r.2 else r.2
    | none => baseDomain.kvRangeFrom f rest s

/-- Modelled from the spec: method `baseDomain.kvRange` on the whole mapping. -/
def baseDomain.kvRange {σ : Type} (b : baseDomain) (f : String → Forwarder → σ → Bool × σ)
    (s : σ) : σ :=
  baseDomain.kvRangeFrom f b.innerMap s

/-- Type `forwarderDomain`: the generic store, embedded. -/
structure forwarderDomain where
  base : baseDomain
  deriving DecidableEq, Repr

/-- Function `newForwarderDomain`. -/
def newForwarderDomain : forwarderDomain := { base := newBase }

/-- Method `forwarderDomain.AddForwarder` on a forwarder that is not nil (the key is read
from it). -/
def forwarderDomain.AddForwarder (d : forwarderDomain) (dp : Forwarder) : forwarderDomain :=
  { base := d.base.store dp.RegisteredName (some dp) }

/-- Method `forwarderDomain.GetForwarder`. -/
def forwarderDomain.GetForwarder (d : forwarderDomain) (name : String) : Option Forwarder :=
  match d.base.load name with
  | some v => some v
  | none => none

/-- Method `forwarderDomain.DeleteForwarder`. -/
def forwarderDomain.DeleteForwarder (d : forwarderDomain) (name : String) : forwarderDomain :=
  { base := d.base.delete name }

/-- Method `forwarderDomain.UpdateForwarder`. -/
def forwarderDomain.UpdateForwarder (d : forwarderDomain) (dp : Forwarder) : forwarderDomain :=
  { base := d.base.store dp.RegisteredName (some dp) }

/-- What the selector of `SelectForwarder` answers on a forwarder: a nil selector accepts
every forwarder (`forwarderSelector == nil || forwarderSelector(fwd)`). -/
def accepts (forwarderSelector : Option (Forwarder → Bool)) (fwd : Forwarder) : Bool :=
  match forwarderSelector with
  | none => true
  | some selector => selector fwd

/-- Method `forwarderDomain.SelectForwarder`: the scan keeps the first accepted forwarder
in `rv` and stops; a nil `rv` after the scan gives the error. -/
def forwarderDomain.SelectForwarder (d : forwarderDomain)
    (forwarderSelector : Option (Forwarder → Bool)) : Option Forwarder × Option Error :=
  let rv : Option Forwarder :=
    d.base.kvRange
      (fun _ fwd rv => if accepts forwarderSelector fwd then (false, some fwd) else (true, rv))
      none
  match rv with
  | none => (none, some "no appropriate forwarders found")
  | some fwd => (some fwd, none)

/-! ## `pkg/model/forwarder.go`, with the addresses of the objects

The same store and the same methods as above, with every `*Forwarder` as the address of
an object in memory, so that "the same object" and "a copy" are different things.  What
the objects bound in the map hold is the forwarder domain above (`forwarderHeap.values`). -/

/-- Address of a `Forwarder` object. -/
abbrev Addr := Nat

/-- The forwarder domain and the memory its `Forwarder` objects live in: the addresses
below `size` are allocated, `objects` gives the object at an address, and `innerMap` binds
a key to the address of the stored object. -/
structure forwarderHeap where
  size : Nat
  objects : Addr → Forwarder
  innerMap : List (String × Addr)

/-- The allocation `&Forwarder{...}`: the object is put at the first free address. -/
def forwarderHeap.new (s : forwarderHeap) (f : Forwarder) : Addr × forwarderHeap :=
  (s.size, { s with size := s.size + 1,
                    objects := fun a => if a = s.size then f else s.objects a })

/-- Method `Forwarder.clone` on a pointer: nil for nil, otherwise the address of a newly
allocated `Forwarder` with the three fields of the receiver. -/
def forwarderHeap.clone (s : forwarderHeap) (d : Option Addr) : Option Addr × forwarderHeap :=
  match d with
  | none => (none, s)
  | some a =>
    let r := s.new { RegisteredName := (s.objects a).RegisteredName,
                     SocketLocation := (s.objects a).SocketLocation,
                     MechanismsConfigured := (s.objects a).MechanismsConfigured }
    (some r.1, r.2)

/-- Modelled from the spec: method `baseDomain.store` on pointers, "inserts or overwrites
by key"; the map keeps the address of the clone of the value. -/
def forwarderHeap.store (s : forwarderHeap) (key : String) (value : Option Addr) :
    forwarderHeap :=
  let c := s.clone value
  let s1 := c.2
  match c.1 with
  | some v => { s1 with innerMap := (key, v) :: s1.innerMap.filter (fun kv => decide (kv.1 ≠ key)) }
  | none => { s1 with innerMap := s1.innerMap.filter (fun kv => decide (kv.1 ≠ key)) }

/-- Modelled from the spec: method `baseDomain.load` on pointers, "lookup; absent is not
an error": the address of a clone of the stored object, or nil. -/
def forwarderHeap.load (s : forwarderHeap) (key : String) : Option Addr × forwarderHeap :=
  match s.innerMap.lookup key with
  | some v => s.clone (some v)
  | none => (none, s)

/-- Method `forwarderDomain.AddForwarder` on the pointer `dp` to an allocated object. -/
def forwarderHeap.AddForwarder (s : forwarderHeap) (dp : Addr) : forwarderHeap :=
  s.store (s.objects dp).RegisteredName (some dp)

/-- Method `forwarderDomain.GetForwarder`, returning a pointer. -/
def forwarderHeap.GetForwarder (s : forwarderHeap) (name : String) :
    Option Addr × forwarderHeap :=
  let r := s.load name
  match r.1 with
  | some v => (some v, r.2)
  | none => (none, r.2)

/-- The forwarder domain that the memory holds: every key with the object at the address
bound to it. -/
def forwarderHeap.values (s : forwarderHeap) : forwarderDomain :=
  { base := { innerMap := s.innerMap.map (fun kv => (kv.1, s.objects kv.2)) } }

/-- Every address bound in the map is allocated. -/
def forwarderHeap.WellFormed (s : forwarderHeap) : Prop :=
  ∀ kv ∈ s.innerMap, kv.2 < s.size

/-! ## `pkg/model/model.go`: the listeners -/

/-- A listener, by its identity (the key of `map[Listener]func()`). -/
abbrev Listener := Nat

/-- The function that `AddListener` stores for a listener: it calls the three handles
that registering the listener's handlers with the endpoint, forwarder and client
connection collections returned. -/
structure Deleter where
  endpListenerDelete : Nat
  dpListenerDelete : Nat
  ccListenerDelete : Nat
  deriving DecidableEq, Repr

/-- The fields of `model` that the listener methods read and write: the map `listeners`
(the first binding of a key is the current one) and, modelled from the spec ("listener
registration returns a deregistration handle"), the handlers registered with the three
collections, each by the number its registration was given, and the next number to
give. -/
structure listenerModel where
  listeners : List (Listener × Deleter)
  endpointHandlers : List Nat
  forwarderHandlers : List Nat
  clientConnectionHandlers : List Nat
  nextHandler : Nat
  deriving DecidableEq, Repr

/-- The listener part of `NewModel()`: no listener, no handler. -/
def NewModel : listenerModel :=
  { listeners := [], endpointHandlers := [], forwarderHandlers := [],
    clientConnectionHandlers := [], nextHandler := 0 }

/-- Method `model.AddListener`: a handler is registered with each of the three
collections and the function that deregisters the three is bound to the listener. -/
def AddListener (m : listenerModel) (listener : Listener) : listenerModel :=
  let deleter : Deleter :=
    { endpListenerDelete := m.nextHandler, dpListenerDelete := m.nextHandler + 1,
      ccListenerDelete := m.nextHandler + 2 }
  { listeners := (listener, deleter) :: m.listeners.filter (fun kv => decide (kv.1 ≠ listener)),
    endpointHandlers := deleter.endpListenerDelete :: m.endpointHandlers,
    forwarderHandlers := deleter.dpListenerDelete :: m.forwarderHandlers,
    clientConnectionHandlers := deleter.ccListenerDelete :: m.clientConnectionHandlers,
    nextHandler := m.nextHandler + 3 }

/-- Method `model.RemoveListener`: the deleter is read from the map; when the listener is
not a key, `No such listener` is logged and the function goes on to call the deleter,
which is then a nil function value: the call panics (the deferred unlock runs, the map
is as it was).  Otherwise the deleter runs and the key is deleted. -/
def RemoveListener (m : listenerModel) (listener : Listener) : Outcome Unit × listenerModel :=
  match m.listeners.lookup listener with
  | none => (Outcome.panicked, m)
  | some deleter =>
    (Outcome.returned (),
      { m with
        endpointHandlers := m.endpointHandlers.filter (fun h => decide (h ≠ deleter.endpListenerDelete)),
        forwarderHandlers := m.forwarderHandlers.filter (fun h => decide (h ≠ deleter.dpListenerDelete)),
        clientConnectionHandlers :=
          m.clientConnectionHandlers.filter (fun h => decide (h ≠ deleter.ccListenerDelete)),
        listeners := m.listeners.filter (fun kv => decide (kv.1 ≠ listener)) })

/-- Method `model.ListenerCount`: `len(m.listeners)`. -/
def ListenerCount (m : listenerModel) : Nat := m.listeners.length

/-! ## Notions used in the statements -/

/-- The relation between a later and an earlier outside call of one `Request`: a request
is not forwarded for an endpoint whose `EndpointNSMName` is that of an endpoint for which
an earlier `ProcessNext` failed; and the exclusion map passed to a later `GetEndpoint`
has all the keys of the map passed to an earlier one. -/
def NoRetryOf {W : Type} (env : Env W) (later earlier : Event) : Prop :=
  match later, earlier with
  | Event.ProcessNext c1 _ _, Event.ProcessNext c2 _ (some _) =>
    env.GetEndpointNSMName c1.Endpoint ≠ env.GetEndpointNSMName c2.Endpoint
  | Event.GetEndpoint _ m1 _, Event.GetEndpoint _ m2 _ => m2.keys ⊆ m1.keys
  | _, _ => True

/-- The invariant of the retry loop on the log and the exclusion map: the log is ordered
by `NoRetryOf`, every endpoint whose `ProcessNext` failed is a key of the map, every map
that was passed to `GetEndpoint` has its keys in the map, and so has the map `ignore0`
the call started with. -/
def ExclusionInv {W : Type} (env : Env W) (ignore0 : IgnoreMap) (log : List Event)
    (ig : IgnoreMap) : Prop :=
  List.Pairwise (NoRetryOf env) log ∧
  (∀ c r e, Event.ProcessNext c r (some e) ∈ log → env.GetEndpointNSMName c.Endpoint ∈ ig.keys) ∧
  (∀ nc m res, Event.GetEndpoint nc m res ∈ log → m.keys ⊆ ig.keys) ∧
  ignore0.keys ⊆ ig.keys

/-- At the head of the retry loop `lastError` is the error of the `ProcessNext` call that
is the most recent outside call, and the most recent outside call is no `GetEndpoint`. -/
def LastErrorLogged {W : Type} (st : SelState W) : Prop :=
  match st.log with
  | Event.ProcessNext _ _ (some e) :: _ => st.lastError = some e
  | Event.GetEndpoint _ _ _ :: _ => False
  | _ => True

/-! ## A scripted environment

Concrete outside behaviour for the examples: the world is a clock that every outside
call advances by one. -/

/-- What the scripted outside world does. -/
structure Script where
  /-- Answer of `IsRemote`. -/
  remote : Bool := false
  /-- Answer of `IsComplete`. -/
  incomplete : Option Error := none
  /-- Error of `UpdateContext`, if it is to fail. -/
  updateContextErr : Option Error := none
  /-- The caller's context is done once the clock has reached this value. -/
  deadline : Nat := 1000
  /-- The endpoints `GetEndpoint` chooses from, in order. -/
  candidates : List NSERegistration := []
  /-- Names of the endpoints for which the rest of the pipeline fails. -/
  failing : List String := []
  /-- The registry entries for the forwarder service name. -/
  forwarders : List Endpoint := []
  /-- Error of `ProcessClose`, if it is to fail. -/
  closeErr : Option Error := none
  /-- Error of `ForwarderConnection`, if it is to fail. -/
  forwarderConnectionErr : Option Error := none
  /-- Error of the forwarder client's `Close`, if it is to fail. -/
  clientCloseErr : Option Error := none

/-- Name of a registration in the scripted world: endpoint name, `@`, manager URL. -/
def scriptName : Option NSERegistration → String
  | some e => e.EndpointName ++ "@" ++
      (match e.NetworkServiceManager with
       | some m => m.Url
       | none => "")
  | none => "@"

/-- The scripted environment over the clock. -/
def scriptEnv (s : Script) : Env Nat where
  GetEndpoint := fun w _ ignoreEndpoints =>
    match s.candidates.find? (fun e => decide (scriptName (some e) ∉ ignoreEndpoints.keys)) with
    | some e => (Result.ok e, w + 1)
    | none => (Result.error "no endpoint left", w + 1)
  IsLocalEndpoint := fun _ _ => true
  ProcessNext := fun w ctx request =>
    if scriptName ctx.Endpoint ∈ s.failing then
      ((none, some ("refused by " ++ scriptName ctx.Endpoint)), w + 1)
    else ((request.Connection, none), w + 1)
  ProcessClose := fun w _ _ =>
    match s.closeErr with
    | some e => ((none, some e), w + 1)
    | none => ((some (), none), w + 1)
  ctxErr := fun w => if s.deadline ≤ w then some "context deadline exceeded" else none
  GetEndpointNSMName := scriptName
  IsRemote := fun _ => s.remote
  IsComplete := fun _ => s.incomplete
  UpdateContext := fun c context =>
    match s.updateContextErr with
    | some e => (c, some e)
    | none => ({ c with Context := context }, none)
  GetEndpointsByNetworkService := fun _ _ => s.forwarders
  GetEndpoint_ := fun _ name => s.forwarders.find? (fun e => decide (e.Name = name))
  EndpointName := fun e => e.Name
  EndpointConnection := fun w _ => (Result.ok 7, w + 1)
  ClientRequest := fun w _ _ request => ((request.Connection, none), w + 1)
  SID := fun w id => (id ++ "-" ++ toString w, w + 1)
  GetForwarder := fun _ name => some ⟨name, "/var/lib/forwarder.sock", true⟩
  ForwarderConnection := fun w _ =>
    match s.forwarderConnectionErr with
    | some e => (Result.error e, w + 1)
    | none => (Result.ok (7, some 3), w + 1)
  ClientClose := fun w _ _ => (s.clientCloseErr, w + 1)
  ConnClose := fun w _ => w + 1
  formatRequest := fun _ => "request"
  srv6MECHANISM := "SRV6"
  srv6SrcBSID := "src_bsid"
  srv6SrcLocalSID := "src_localsid"

/-- A kernel-interface mechanism with one parameter, for the examples. -/
def demoMechanism (value : String) : Mechanism :=
  { Cls := "REMOTE", MechanismType := "VXLAN", Parameters := [("vni", value)] }

/-- A connection for the examples. -/
def demoConnection (id : String) (mechanism : Option Mechanism) : Connection :=
  { Id := id, NetworkService := "icmp-responder", Mechanism := mechanism,
    Context := some ⟨"ip-context"⟩, State := State.DOWN, Path := none }

/-- A request for the examples: it asks for `icmp-responder` and prefers the given
mechanism. -/
def demoRequest (preferred : Mechanism) : NetworkServiceRequest :=
  { Connection := some (demoConnection "1" none), MechanismPreferences := [some preferred] }

/-- An endpoint registration for the examples. -/
def demoEndpoint (name : String) : NSERegistration :=
  { EndpointName := name, NetworkServiceManager := some ⟨"nsm-1", "10.0.0.1:5001"⟩ }

/-- A tracked connection for the examples: `icmp-responder`, destination mechanism
`demoMechanism "100"`, endpoint `nse-1`. -/
def demoClientConnection (state : ClientConnectionState) (forwarderState : ForwarderState) :
    ClientConnection :=
  { ConnectionID := "1", NetworkService := "icmp-responder",
    Xcon := { Source := demoConnection "1" none,
              Destination := demoConnection "2" (some (demoMechanism "100")) },
    RemoteNsm := none, Endpoint := some (demoEndpoint "nse-1"),
    ForwarderRegisteredName := "forwarder-1", ConnectionState := state,
    ForwarderState := forwarderState }

/-- The empty call context. -/
def emptyCtx : Ctx := { Forwarder := none, Endpoint := none, RemoteMechanisms := [] }

/-- A healing tracked connection for the examples whose destination connection carries
the given context; everything else is as in `demoClientConnection`. -/
def healingConnection (destinationContext : String) : ClientConnection :=
  { demoClientConnection ClientConnectionState.ClientConnectionHealing 0 with
    Xcon := { Source := demoConnection "1" none,
              Destination := { demoConnection "2" (some (demoMechanism "100")) with
                Context := some ⟨destinationContext⟩ } } }

/-- A forwarder for the examples. -/
def demoForwarder (n : String) : Forwarder :=
  { RegisteredName := "fwd" ++ n, SocketLocation := "/socket-" ++ n,
    MechanismsConfigured := true }

/-- The forwarder domain of the test `TestSelectFwd`, with three forwarders. -/
def demoDomain : forwarderDomain :=
  ((newForwarderDomain.AddForwarder (demoForwarder "0")).AddForwarder
    (demoForwarder "1")).AddForwarder (demoForwarder "2")

/-! # Properties

## Lemmas on the number conversions -/

theorem isHexDigit_iff (c : Char) : isHexDigit c = true ↔ ∃ d, digitValue c = some d ∧ d < 16 := by
  unfold isHexDigit
  cases digitValue c <;> simp

theorem digitValue_digitChar (d : Nat) (h : d < 16) : digitValue (digitChar d) = some d := by
  interval_cases d <;> rfl

theorem hexValue_append (a b : List Char) (n : Nat) :
    hexValue (a ++ b) n = hexValue b (hexValue a n) := by
  simp [hexValue, List.foldl_append]

theorem hexValue_cons (c : Char) (cs : List Char) (n : Nat) :
    hexValue (c :: cs) n = hexValue cs (n * 16 + (digitValue c).getD 0) := rfl

theorem le_hexValue (l : List Char) (n : Nat) : n ≤ hexValue l n := by
  induction l generalizing n with
  | nil => simp [hexValue]
  | cons c cs ih =>
    rw [hexValue_cons]
    have := ih (n * 16 + (digitValue c).getD 0)
    omega

/-- On a string of hexadecimal digits whose value fits 64 bits the digit loop of
`ParseUint` returns that value and no error. -/
theorem parseLoop_hex (l : List Char) (n : Nat)
    (hd : ∀ c ∈ l, ∃ d, digitValue c = some d ∧ d < 16) (hv : hexValue l n < 2 ^ 64) :
    parseLoop l n = (hexValue l n, none) := by
  induction l generalizing n with
  | nil => simp [parseLoop, hexValue]
  | cons c cs ih =>
    obtain ⟨d, hcd, hd16⟩ := hd c (List.mem_cons_self _ _)
    rw [hexValue_cons, hcd] at hv ⊢
    simp only [Option.getD_some] at hv ⊢
    have hle := le_hexValue cs (n * 16 + d)
    have h1 : n * 16 + d < 2 ^ 64 := lt_of_le_of_lt hle hv
    have h2 : ¬ (16 ≤ d) := by omega
    have h3 : ¬ (maxUint64 / 16 + 1 ≤ n) := by
      simp only [maxUint64]; omega
    have h4 : (n * 16) % 2 ^ 64 = n * 16 := Nat.mod_eq_of_lt (by omega)
    have h5 : (n * 16 + d) % 2 ^ 64 = n * 16 + d := Nat.mod_eq_of_lt h1
    have h6 : ¬ (n * 16 + d < n * 16 ∨ maxUint64 < n * 16 + d) := by
      simp only [maxUint64]; omega
    simp only [parseLoop, hcd, h2, h3, h4, h5, h6, if_false]
    exact ih (n * 16 + d) (fun c hc => hd c (List.mem_cons_of_mem _ hc)) hv

theorem parseLoop_le (l : List Char) (n : Nat) (hn : n ≤ maxUint64) :
    (parseLoop l n).1 ≤ maxUint64 := by
  induction l generalizing n with
  | nil => simpa [parseLoop] using hn
  | cons c cs ih =>
    simp only [parseLoop]
    split
    · simp
    · split
      · simp
      · split
        · simp
        · split
          · simp
          · rename_i h
            apply ih
            omega

theorem ParseUint_le (s : String) : (ParseUint s).1 ≤ maxUint64 := by
  unfold ParseUint
  split
  · simp
  · exact parseLoop_le _ _ (Nat.zero_le _)

theorem formatBits_append (free u : Nat) (acc : List Char) :
    formatBits free u acc = formatBits free u [] ++ acc := by
  induction free generalizing u acc with
  | zero => simp [formatBits]
  | succ k ih =>
    simp only [formatBits]
    split
    · rw [ih (u / 16) (digitChar (u % 16) :: acc), ih (u / 16) [digitChar (u % 16)]]
      simp
    · simp

theorem formatBits_hex (free u : Nat) (hu : u < 16 ^ (free + 1)) :
    (∀ c ∈ formatBits free u [], ∃ d, digitValue c = some d ∧ d < 16) ∧
      hexValue (formatBits free u []) 0 = u ∧ formatBits free u [] ≠ [] := by
  induction free generalizing u with
  | zero =>
    have hu16 : u < 16 := by simpa using hu
    refine ⟨?_, ?_, by simp [formatBits]⟩
    · intro c hc
      simp only [formatBits, List.mem_singleton] at hc
      exact ⟨u, hc ▸ digitValue_digitChar u hu16, hu16⟩
    · simp [formatBits, hexValue, digitValue_digitChar u hu16]
  | succ k ih =>
    simp only [formatBits]
    split
    · rename_i h16
      have hq : u / 16 < 16 ^ (k + 1) := by
        rw [Nat.div_lt_iff_lt_mul (by norm_num)]
        calc u < 16 ^ (k + 1 + 1) := hu
          _ = 16 ^ (k + 1) * 16 := by ring
      obtain ⟨h1, h2, h3⟩ := ih (u / 16) hq
      have hr : u % 16 < 16 := Nat.mod_lt _ (by norm_num)
      rw [formatBits_append]
      refine ⟨?_, ?_, by simp⟩
      · intro c hc
        rcases List.mem_append.1 hc with hc | hc
        · exact h1 c hc
        · simp only [List.mem_singleton] at hc
          exact ⟨u % 16, hc ▸ digitValue_digitChar _ hr, hr⟩
      · rw [hexValue_append, h2]
        simp only [hexValue, List.foldl_cons, List.foldl_nil, digitValue_digitChar _ hr,
          Option.getD_some]
        omega
    · rename_i h16
      have hu16 : u < 16 := by omega
      refine ⟨?_, ?_, by simp⟩
      · intro c hc
        simp only [List.mem_singleton] at hc
        exact ⟨u, hc ▸ digitValue_digitChar u hu16, hu16⟩
      · simp [hexValue, digitValue_digitChar u hu16]

/-- A valid base-16 representation parses to its value without error. -/
theorem ParseUint_of_IsHexOf (s : String) (v : Nat) (h : IsHexOf s v) :
    ParseUint s = (v, none) := by
  obtain ⟨hne, hd, hv, hlt⟩ := h
  unfold ParseUint
  rw [if_neg hne, parseLoop_hex _ _ (fun c hc => (isHexDigit_iff c).1 (hd c hc))
    (by rw [hv]; exact hlt), hv]

/-- The text `FormatUint` writes for a 64-bit number is a valid representation of it. -/
theorem IsHexOf_FormatUint (u : Nat) (hu : u < 2 ^ 64) : IsHexOf (FormatUint u) u := by
  have h : u < 16 ^ (64 + 1) := lt_of_lt_of_le hu (by norm_num)
  obtain ⟨h1, h2, h3⟩ := formatBits_hex 64 u h
  exact ⟨h3, fun c hc => (isHexDigit_iff c).2 (h1 c hc), h2, hu⟩

theorem ParseUint_FormatUint (u : Nat) (hu : u < 2 ^ 64) :
    ParseUint (FormatUint u) = (u, none) :=
  ParseUint_of_IsHexOf _ _ (IsHexOf_FormatUint u hu)

/-! ## The ID generator -/

theorem CorrectIDGenerator_ge (m : model) (id : String) :
    m.lastConnectionID ≤ (m.CorrectIDGenerator id).lastConnectionID := by
  simp only [model.CorrectIDGenerator]
  split
  · rename_i h
    exact le_of_lt h
  · exact le_refl _

theorem CorrectIDGenerator_le (m : model) (id : String) (hm : m.lastConnectionID ≤ maxUint64) :
    (m.CorrectIDGenerator id).lastConnectionID ≤ maxUint64 := by
  simp only [model.CorrectIDGenerator]
  split
  · exact ParseUint_le id
  · exact hm

/-- Every result of a run without wrap-around parses, without error, to a number above
the counter the run started from, and the numbers increase along the run. -/
theorem runCalls_increasing (calls : List Call) (m : model)
    (hm : m.lastConnectionID ≤ maxUint64) (hnw : noWrap m calls = true) :
    ∃ vs : List Nat, (runCalls m calls).1.map ParseUint = vs.map (fun v => (v, none)) ∧
      List.Pairwise (fun a b => a < b) vs ∧ ∀ v ∈ vs, m.lastConnectionID < v := by
  induction calls generalizing m with
  | nil => exact ⟨[], by simp [runCalls]⟩
  | cons c cs ih =>
    cases c with
    | ConnectionID =>
      simp only [noWrap, Bool.and_eq_true, decide_eq_true_eq] at hnw
      have hlt : m.lastConnectionID + 1 < 2 ^ 64 := by
        have := hnw.1
        simp only [maxUint64] at hm this
        omega
      have hmod : (m.lastConnectionID + 1) % 2 ^ 64 = m.lastConnectionID + 1 :=
        Nat.mod_eq_of_lt hlt
      have hnext : m.ConnectionID.2.lastConnectionID = m.lastConnectionID + 1 := by
        show (m.lastConnectionID + 1) % 2 ^ 64 = _
        exact hmod
      have hres : ParseUint m.ConnectionID.1 = (m.lastConnectionID + 1, none) := by
        simp only [model.ConnectionID, hmod]
        exact ParseUint_FormatUint _ hlt
      obtain ⟨vs, h1, h2, h3⟩ := ih m.ConnectionID.2
        (by rw [hnext]; simp only [maxUint64]; omega) hnw.2
      refine ⟨(m.lastConnectionID + 1) :: vs, ?_, ?_, ?_⟩
      · simp only [runCalls, List.map_cons, hres, h1]
      · refine List.pairwise_cons.2 ⟨fun v hv => ?_, h2⟩
        have := h3 v hv
        omega
      · intro v hv
        rcases List.mem_cons.1 hv with rfl | hv
        · omega
        · have := h3 v hv
          omega
    | CorrectIDGenerator id =>
      simp only [noWrap] at hnw
      obtain ⟨vs, h1, h2, h3⟩ := ih (m.CorrectIDGenerator id)
        (CorrectIDGenerator_le m id hm) hnw
      refine ⟨vs, by simpa [runCalls] using h1, h2, fun v hv => ?_⟩
      exact lt_of_le_of_lt (CorrectIDGenerator_ge m id) (h3 v hv)

/-- C1, as the claim states it, fails: on a fresh model (counter 0) the calls
`ConnectionID`, `CorrectIDGenerator("ffffffffffffffff")`, `ConnectionID`, `ConnectionID`
return `"1"`, `"0"`, `"1"`: the second result is below the first, and the third repeats
the first (the increment wraps around at `2^64`). -/
theorem C1_ConnectionID_wraps :
    (runCalls (model.mk 0)
      [Call.ConnectionID, Call.CorrectIDGenerator "ffffffffffffffff", Call.ConnectionID,
        Call.ConnectionID]).1 = ["1", "0", "1"] ∧
    ParseUint "1" = (1, none) ∧ ParseUint "0" = (0, none) ∧ ¬ (1 < 0) := by
  decide

/-- C1, amended: for every model state and every sequence of `ConnectionID` and
`CorrectIDGenerator` calls executed one after another in which no `ConnectionID` call
starts with the counter at `2^64 - 1` (no wrap-around), every `ConnectionID` result
parses as a base-16 64-bit number that is strictly greater than that of every earlier
`ConnectionID` result; in particular no two results are the same string. -/
theorem C1_ConnectionID_strictly_increasing (m : model) (calls : List Call)
    (hm : m.lastConnectionID < 2 ^ 64) (hnw : noWrap m calls = true) :
    List.Pairwise
        (fun a b => ∃ x y, ParseUint a = (x, none) ∧ ParseUint b = (y, none) ∧ x < y)
        (runCalls m calls).1 ∧
      (runCalls m calls).1.Nodup := by
  obtain ⟨vs, h1, h2, -⟩ := runCalls_increasing calls m
    (by simp only [maxUint64]; omega) hnw
  have key : ∀ (rs : List String) (vs : List Nat),
      rs.map ParseUint = vs.map (fun v => (v, none)) → List.Pairwise (fun a b => a < b) vs →
      List.Pairwise
        (fun a b => ∃ x y, ParseUint a = (x, none) ∧ ParseUint b = (y, none) ∧ x < y) rs := by
    intro rs
    induction rs with
    | nil => intro _ _ _; exact List.Pairwise.nil
    | cons r rs ih =>
      intro vs hmap hpw
      cases vs with
      | nil => simp at hmap
      | cons v vs =>
        simp only [List.map_cons, List.cons.injEq] at hmap
        obtain ⟨hv, hpw⟩ := List.pairwise_cons.1 hpw
        refine List.pairwise_cons.2 ⟨fun b hb => ?_, ih vs hmap.2 hpw⟩
        have hb2 : ParseUint b ∈ rs.map ParseUint := List.mem_map_of_mem _ hb
        rw [hmap.2] at hb2
        obtain ⟨y, hy, hyb⟩ := List.mem_map.1 hb2
        exact ⟨v, y, hmap.1, hyb.symm, hv y hy⟩
  have hp := key _ vs h1 h2
  refine ⟨hp, ?_⟩
  refine List.Pairwise.imp ?_ hp
  rintro a b ⟨x, y, ha, hb, hxy⟩ hab
  rw [hab, hb] at ha
  simp only [Prod.mk.injEq] at ha
  omega

/-- Witness of C1: from counter 9 the calls `ConnectionID`, `CorrectIDGenerator("1f")`,
`ConnectionID` meet the no-wrap hypothesis, and their results increase. -/
theorem C1_ConnectionID_strictly_increasing_witness :
    List.Pairwise
        (fun a b => ∃ x y, ParseUint a = (x, none) ∧ ParseUint b = (y, none) ∧ x < y)
        (runCalls (model.mk 9)
          [Call.ConnectionID, Call.CorrectIDGenerator "1f", Call.ConnectionID]).1 ∧
      (runCalls (model.mk 9)
          [Call.ConnectionID, Call.CorrectIDGenerator "1f", Call.ConnectionID]).1.Nodup :=
  C1_ConnectionID_strictly_increasing (model.mk 9)
    [Call.ConnectionID, Call.CorrectIDGenerator "1f", Call.ConnectionID]
    (by decide) (by decide)

/-- C2: for every counter value `c` and every `id` that is a valid base-16
representation of a 64-bit unsigned number `v`, after `CorrectIDGenerator(id)` the
counter is `max c v`; it is not below `c` and it is at least `v`. -/
theorem C2_CorrectIDGenerator_max (m : model) (id : String) (v : Nat) (h : IsHexOf id v) :
    (m.CorrectIDGenerator id).lastConnectionID = max m.lastConnectionID v ∧
      m.lastConnectionID ≤ (m.CorrectIDGenerator id).lastConnectionID ∧
      v ≤ (m.CorrectIDGenerator id).lastConnectionID := by
  have hp := ParseUint_of_IsHexOf id v h
  simp only [model.CorrectIDGenerator, hp]
  split
  · rename_i hlt
    simp only [le_refl, and_true]
    exact ⟨(max_eq_right (le_of_lt hlt)).symm, le_of_lt hlt⟩
  · rename_i hge
    have hle : v ≤ m.lastConnectionID := not_lt.1 hge
    exact ⟨(max_eq_left hle).symm, le_refl _, hle⟩

/-- Witness of C2: counter 5 and `id = "1F"`, a representation of 31. -/
theorem C2_CorrectIDGenerator_max_witness :
    IsHexOf "1F" 31 ∧
      ((model.mk 5).CorrectIDGenerator "1F").lastConnectionID = max (model.mk 5).lastConnectionID 31 ∧
      (model.mk 5).lastConnectionID ≤ ((model.mk 5).CorrectIDGenerator "1F").lastConnectionID ∧
      31 ≤ ((model.mk 5).CorrectIDGenerator "1F").lastConnectionID :=
  ⟨by decide, C2_CorrectIDGenerator_max (model.mk 5) "1F" 31 (by decide)⟩

/-! ## The endpoint selector: the healing decision -/

theorem lookup_of_mem_nodup (l : List (String × String)) (hn : (l.map Prod.fst).Nodup)
    (kv : String × String) (hkv : kv ∈ l) : l.lookup kv.1 = some kv.2 := by
  induction l with
  | nil => simp at hkv
  | cons x xs ih =>
    obtain ⟨k, v⟩ := x
    simp only [List.map_cons, List.nodup_cons] at hn
    rcases List.mem_cons.1 hkv with h | h
    · subst h
      simp [List.lookup]
    · have hne : kv.1 ≠ k := by
        intro heq
        exact hn.1 (heq ▸ List.mem_map_of_mem Prod.fst h)
      have hbeq : (kv.1 == k) = false := by simpa using hne
      simp only [List.lookup, hbeq]
      exact ih hn.2 h

theorem mem_of_lookup_eq_some (l : List (String × String)) (k v : String)
    (h : l.lookup k = some v) : (k, v) ∈ l := by
  induction l with
  | nil => simp at h
  | cons x xs ih =>
    obtain ⟨k1, v1⟩ := x
    simp only [List.lookup] at h
    by_cases hk : k = k1
    · subst hk
      simp only [beq_self_eq_true, Option.some.injEq] at h
      subst h
      exact List.mem_cons_self _ _
    · have hbeq : (k == k1) = false := by simpa using hk
      rw [hbeq] at h
      exact List.mem_cons_of_mem _ (ih h)

theorem lookup_eq_none_iff_not_mem_keys {β : Type} (l : List (String × β)) (k : String) :
    l.lookup k = none ↔ k ∉ l.map Prod.fst := by
  induction l with
  | nil => simp
  | cons x xs ih =>
    obtain ⟨k1, v1⟩ := x
    by_cases hk : k = k1
    · subst hk
      simp [List.lookup]
    · have hbeq : (k == k1) = false := by simpa using hk
      simp only [List.lookup, hbeq, List.map_cons, List.mem_cons, hk, false_or]
      exact ih

theorem mapEqual_self (l : List (String × String)) (hn : (l.map Prod.fst).Nodup) :
    mapEqual l l = true := by
  simp only [mapEqual, decide_True, Bool.true_and, List.all_eq_true, decide_eq_true_eq]
  exact fun kv hkv => lookup_of_mem_nodup l hn kv hkv

/-- When the context and the mechanism found for the tracked destination's type are
those of the tracked record, `checkNeedNSERequest` answers that no request to the
endpoint is needed. -/
theorem checkNeedNSERequest_unchanged {W : Type} (env : Env W) (request : NetworkServiceRequest)
    (cc : ClientConnection)
    (hctx : GetContext request.Connection = cc.Xcon.Source.Context)
    (hmech : env.IsRemote cc.Xcon.Destination = true →
      ∃ reqM, findMechanism request.MechanismPreferences (GetType cc.Xcon.Destination.Mechanism)
          = some reqM ∧ cc.Xcon.Destination.Mechanism = some reqM ∧
        (reqM.Parameters.map Prod.fst).Nodup) :
    checkNeedNSERequest env request cc = false := by
  unfold checkNeedNSERequest
  simp only [protoEqualContext, hctx, decide_True, Bool.not_true, Bool.false_eq_true, if_false]
  cases hr : env.IsRemote cc.Xcon.Destination with
  | false => simp
  | true =>
    obtain ⟨reqM, hfind, hdst, hnodup⟩ := hmech hr
    simp only [if_true, hfind]
    have hany : reqM.Parameters.any
        (fun kv => decide (kv.2 ≠ paramAt (GetParameters cc.Xcon.Destination.Mechanism) kv.1))
        = false := by
      rw [List.any_eq_false]
      intro kv hkv
      simp only [hdst, GetParameters, paramAt, lookup_of_mem_nodup _ hnodup kv hkv,
        Option.getD_some, ne_eq, not_true_eq_false, decide_False, Bool.false_eq_true,
        not_false_eq_true]
    have heq : reqM.Equals cc.Xcon.Destination.Mechanism = true := by
      simp [hdst, Mechanism.Equals, mapEqual_self _ hnodup]
    simp only [hany, heq, Bool.false_eq_true, if_false, Bool.not_true]

/-- C3, as the claim states it, fails: a healing connection, the same network service
name, the same context, the same destination mechanism and a complete destination, but
`UpdateContext` of the request's connection refuses the destination's context: `Request`
returns a nil connection and the error of step 7.3 (after a `ProcessClose`). -/
theorem C3_fast_path_update_context_fails :
    (Request (scriptEnv { remote := true, updateContextErr := some "requirements not met" })
        5 emptyCtx 0 (demoRequest (demoMechanism "100"))
        (some (demoClientConnection ClientConnectionState.ClientConnectionHealing 0)) []).1
      = Outcome.returned (ConnRef.null,
          some "NSM:(7.3) Failed to update source connection context: requirements not met") ∧
    (scriptEnv { remote := true, updateContextErr := some "requirements not met" }).IsComplete
        (demoClientConnection ClientConnectionState.ClientConnectionHealing 0).Xcon.Destination
      = none ∧
    findMechanism (demoRequest (demoMechanism "100")).MechanismPreferences "VXLAN"
      = (demoClientConnection ClientConnectionState.ClientConnectionHealing 0).Xcon.Destination.Mechanism ∧
    GetContext (demoRequest (demoMechanism "100")).Connection
      = (demoClientConnection ClientConnectionState.ClientConnectionHealing 0).Xcon.Source.Context ∧
    GetNetworkService (demoRequest (demoMechanism "100")).Connection
      = (demoClientConnection ClientConnectionState.ClientConnectionHealing 0).NetworkService := by
  decide

/-- C3, amended: for every request that carries a connection and whose bound
`ClientConnection` is in the Healing state, whose network service name equals the
tracked one, whose connection context equals the tracked source connection's context,
and for which (when the tracked destination is remote) the mechanism preference found
for the tracked destination mechanism's type is the tracked destination mechanism
(class, type and a well-formed parameter map), with the tracked destination connection
complete and `UpdateContext` of the request's connection with the destination's context
succeeding, `Request` makes no outside call (neither `GetEndpoint` nor `ProcessNext` is
in the log) and returns `request.Connection` itself with a nil error; the object then
holds what `UpdateContext` left in it. -/
theorem C3_healing_fast_path {W : Type} (env : Env W) (bound : Nat) (ctx : Ctx) (w : W)
    (request : NetworkServiceRequest) (conn : Connection) (cc : ClientConnection)
    (ignoreEndpoints : IgnoreMap)
    (hconn : request.Connection = some conn)
    (hheal : cc.ConnectionState = ClientConnectionState.ClientConnectionHealing)
    (hns : conn.NetworkService = cc.NetworkService)
    (hctx : conn.Context = cc.Xcon.Source.Context)
    (hmech : env.IsRemote cc.Xcon.Destination = true →
      ∃ reqM, findMechanism request.MechanismPreferences (GetType cc.Xcon.Destination.Mechanism)
          = some reqM ∧ cc.Xcon.Destination.Mechanism = some reqM ∧
        (reqM.Parameters.map Prod.fst).Nodup)
    (hcomplete : env.IsComplete cc.Xcon.Destination = none)
    (hupdate : (env.UpdateContext conn cc.Xcon.Destination.Context).2 = none) :
    ∃ st, Request env bound ctx w request (some cc) ignoreEndpoints
        = (Outcome.returned (ConnRef.requestConnection, none), some st) ∧
      st.log = [] ∧
      st.request.Connection = some (env.UpdateContext conn cc.Xcon.Destination.Context).1 := by
  have hneed : checkNeedNSERequest env request cc = false :=
    checkNeedNSERequest_unchanged env request cc (by simpa [hconn, GetContext] using hctx) hmech
  have hcheck : checkNSEUpdateIsRequired env ctx (SelState.init w request cc ignoreEndpoints)
      = (false, SelState.init w request cc ignoreEndpoints) := by
    simp [checkNSEUpdateIsRequired, SelState.init, hheal, hconn, GetNetworkService, hns, hneed]
  simp only [Request, RequestBound, hcheck]
  simp only [SelState.init, hheal, true_and, if_true, checkUpdateConnectionContext, hconn,
    updateConnectionContext, hcomplete, hupdate]
  by_cases hlocal : env.IsLocalEndpoint w cc.Endpoint = true
  · simp [hlocal]
  · simp [hlocal]

/-- Witness of C3: the scripted world in which everything succeeds, a healing connection
and a request with the tracked values. -/
theorem C3_healing_fast_path_witness :
    ∃ st, Request (scriptEnv { remote := true }) 5 emptyCtx 0 (demoRequest (demoMechanism "100"))
        (some (demoClientConnection ClientConnectionState.ClientConnectionHealing 0)) []
        = (Outcome.returned (ConnRef.requestConnection, none), some st) ∧
      st.log = [] ∧
      st.request.Connection = some ((scriptEnv { remote := true }).UpdateContext
        (demoConnection "1" none)
        (demoClientConnection ClientConnectionState.ClientConnectionHealing 0).Xcon.Destination.Context).1 :=
  C3_healing_fast_path (scriptEnv { remote := true }) 5 emptyCtx 0
    (demoRequest (demoMechanism "100")) (demoConnection "1" none)
    (demoClientConnection ClientConnectionState.ClientConnectionHealing 0) []
    rfl rfl rfl rfl
    (fun _ => ⟨demoMechanism "100", by decide, by decide, by decide⟩)
    rfl rfl

theorem paramAt_eq_of_mapEqual (a b : List (String × String))
    (hn : (a.map Prod.fst).Nodup) (h : mapEqual a b = true) (k : String) :
    paramAt a k = paramAt b k := by
  simp only [mapEqual, Bool.and_eq_true, decide_eq_true_eq, List.all_eq_true] at h
  obtain ⟨hlen, hall⟩ := h
  have hsub : a.map Prod.fst ⊆ b.map Prod.fst := by
    intro x hx
    obtain ⟨kv, hkv, rfl⟩ := List.mem_map.1 hx
    by_contra hnot
    have := (lookup_eq_none_iff_not_mem_keys b kv.1).2 hnot
    rw [hall kv hkv] at this
    exact Option.noConfusion this
  have hperm : (a.map Prod.fst).Perm (b.map Prod.fst) :=
    (List.subperm_of_subset hn hsub).perm_of_length_le (by simp [hlen])
  unfold paramAt
  cases ha : a.lookup k with
  | some v =>
    have hmem := mem_of_lookup_eq_some a k v ha
    rw [hall (k, v) hmem]
  | none =>
    have hk : k ∉ a.map Prod.fst := (lookup_eq_none_iff_not_mem_keys a k).1 ha
    have hk2 : k ∉ b.map Prod.fst := fun hmem => hk (hperm.mem_iff.2 hmem)
    rw [(lookup_eq_none_iff_not_mem_keys b k).2 hk2]

/-- With a remote tracked destination, a requested mechanism that reads differently from
the tracked destination mechanism at some parameter makes `checkNeedNSERequest` answer
true. -/
theorem checkNeedNSERequest_param_differs {W : Type} (env : Env W)
    (request : NetworkServiceRequest) (cc : ClientConnection) (reqM : Mechanism) (k : String)
    (hremote : env.IsRemote cc.Xcon.Destination = true)
    (hfind : findMechanism request.MechanismPreferences (GetType cc.Xcon.Destination.Mechanism)
      = some reqM)
    (hnodup : (reqM.Parameters.map Prod.fst).Nodup)
    (hdiff : paramAt reqM.Parameters k ≠ paramAt (GetParameters cc.Xcon.Destination.Mechanism) k) :
    checkNeedNSERequest env request cc = true := by
  unfold checkNeedNSERequest
  split
  · rfl
  · simp only [hremote, if_true, hfind]
    split
    · rfl
    · split
      · rfl
      · rename_i hany heq
        exfalso
        simp only [Bool.not_eq_true', Bool.not_eq_false] at heq
        cases hd : cc.Xcon.Destination.Mechanism with
        | none => simp [hd, Mechanism.Equals] at heq
        | some m =>
          simp only [hd, Mechanism.Equals, Bool.and_eq_true] at heq
          apply hdiff
          rw [hd]
          exact paramAt_eq_of_mapEqual _ _ hnodup heq.2 k

/-- The two ways `selectEndpoint` goes: it reuses the healing connection's endpoint, which
is not excluded, without any outside call; or it asks `GetEndpoint` with the exclusion
map as it stands (after possibly resetting the destination ID). -/
theorem selectEndpoint_cases {W : Type} (env : Env W) (st : SelState W)
    (nseConn : Option Connection) :
    (∃ ep, st.clientConnection.ConnectionState = ClientConnectionState.ClientConnectionHealing ∧
        st.clientConnection.Endpoint = some ep ∧
        st.ignoreEndpoints.lookup (env.GetEndpointNSMName (some ep)) = none ∧
        selectEndpoint env st nseConn = (Result.ok ep, st)) ∨
    (∃ cc1, (cc1 = st.clientConnection ∨ cc1 = resetDestinationId st.clientConnection) ∧
        selectEndpoint env st nseConn =
          ((env.GetEndpoint st.world nseConn st.ignoreEndpoints).1,
            { st with clientConnection := cc1,
                      world := (env.GetEndpoint st.world nseConn st.ignoreEndpoints).2,
                      log := Event.GetEndpoint nseConn st.ignoreEndpoints
                        (env.GetEndpoint st.world nseConn st.ignoreEndpoints).1 :: st.log })) := by
  by_cases hheal : st.clientConnection.ConnectionState = ClientConnectionState.ClientConnectionHealing
  · cases hep : st.clientConnection.Endpoint with
    | none =>
      right
      exact ⟨_, Or.inr rfl, by simp [selectEndpoint, hheal, hep]⟩
    | some ep =>
      by_cases hl : st.ignoreEndpoints.lookup (env.GetEndpointNSMName (some ep)) = none
      · left
        exact ⟨ep, hheal, rfl, hl, by simp [selectEndpoint, hheal, hep, hl]⟩
      · right
        exact ⟨_, Or.inr rfl, by simp [selectEndpoint, hheal, hep, hl]⟩
  · right
    exact ⟨_, Or.inl rfl, by simp [selectEndpoint, hheal]⟩

/-! ## The endpoint selector: one attempt of the retry loop -/

theorem attempt_of_select_error {W : Type} (env : Env W) (ctx : Ctx) (st st1 : SelState W)
    (e : Error) (hsel : selectEndpoint env st st.request.Connection = (Result.error e, st1)) :
    attempt env ctx st = Step.done (combineErrors st.lastError (some e)) st1 := by
  simp [attempt, prepareRequest, hsel]

theorem attempt_of_nil_connection {W : Type} (env : Env W) (ctx : Ctx) (st st1 : SelState W)
    (ep : NSERegistration) (hsel : selectEndpoint env st st.request.Connection = (Result.ok ep, st1))
    (hc : st.request.Connection = none) :
    attempt env ctx st = Step.panicked st1 := by
  rw [hc] at hsel
  simp [attempt, prepareRequest, hsel, hc]

theorem attempt_of_timeout {W : Type} (env : Env W) (ctx : Ctx) (st st1 : SelState W)
    (ep : NSERegistration) (c : Connection) (err : Error)
    (hsel : selectEndpoint env st st.request.Connection = (Result.ok ep, st1))
    (hc : st.request.Connection = some c) (hto : checkTimeout env st1.world = some err) :
    attempt env ctx st = Step.done (ConnRef.null, some err) st1 := by
  rw [hc] at hsel
  simp [attempt, prepareRequest, hsel, hc, hto]

theorem attempt_of_next_error {W : Type} (env : Env W) (ctx : Ctx) (st st1 : SelState W)
    (ep : NSERegistration) (c : Connection) (err : Error)
    (hsel : selectEndpoint env st st.request.Connection = (Result.ok ep, st1))
    (hc : st.request.Connection = some c) (hto : checkTimeout env st1.world = none)
    (hnext : (env.ProcessNext st1.world { ctx with Endpoint := some ep }
      { st.request with Connection := some (ensureContext c) }).1.2 = some err) :
    attempt env ctx st = Step.next
      { st1 with
        world := (env.ProcessNext st1.world { ctx with Endpoint := some ep }
          { st.request with Connection := some (ensureContext c) }).2,
        log := Event.ProcessNext { ctx with Endpoint := some ep }
          { st.request with Connection := some (ensureContext c) } (some err) :: st1.log,
        lastError := some err,
        ignoreEndpoints := st1.ignoreEndpoints.set (env.GetEndpointNSMName (some ep)) ep } := by
  rw [hc] at hsel
  simp [attempt, prepareRequest, hsel, hc, hto, hnext]

theorem attempt_of_next_ok {W : Type} (env : Env W) (ctx : Ctx) (st st1 : SelState W)
    (ep : NSERegistration) (c : Connection)
    (hsel : selectEndpoint env st st.request.Connection = (Result.ok ep, st1))
    (hc : st.request.Connection = some c) (hto : checkTimeout env st1.world = none)
    (hnext : (env.ProcessNext st1.world { ctx with Endpoint := some ep }
      { st.request with Connection := some (ensureContext c) }).1.2 = none) :
    attempt env ctx st = Step.done
      (ConnRef.ofNext (env.ProcessNext st1.world { ctx with Endpoint := some ep }
          { st.request with Connection := some (ensureContext c) }).1.1, none)
      { st1 with
        world := (env.ProcessNext st1.world { ctx with Endpoint := some ep }
          { st.request with Connection := some (ensureContext c) }).2,
        log := Event.ProcessNext { ctx with Endpoint := some ep }
          { st.request with Connection := some (ensureContext c) } none :: st1.log,
        clientConnection := recordEndpoint env
          (env.ProcessNext st1.world { ctx with Endpoint := some ep }
            { st.request with Connection := some (ensureContext c) }).2
          st1.clientConnection ep } := by
  rw [hc] at hsel
  simp [attempt, prepareRequest, hsel, hc, hto, hnext]

/-- What `selectEndpoint` leaves behind: the exclusion map, `lastError` and the request
are untouched; either the previous endpoint is reused, it is not a key of the exclusion
map, and log and world are untouched, or the result is that of `GetEndpoint` on the
exclusion map, and that call is logged. -/
theorem selectEndpoint_spec {W : Type} (env : Env W) (st st1 : SelState W)
    (nseConn : Option Connection) (res : Result NSERegistration)
    (hsel : selectEndpoint env st nseConn = (res, st1)) :
    st1.ignoreEndpoints = st.ignoreEndpoints ∧ st1.lastError = st.lastError ∧
      st1.request = st.request ∧
      ((∃ ep, res = Result.ok ep ∧ st1 = st ∧
          env.GetEndpointNSMName (some ep) ∉ st.ignoreEndpoints.keys) ∨
        (res = (env.GetEndpoint st.world nseConn st.ignoreEndpoints).1 ∧
          st1.world = (env.GetEndpoint st.world nseConn st.ignoreEndpoints).2 ∧
          st1.log = Event.GetEndpoint nseConn st.ignoreEndpoints res :: st.log)) := by
  rcases selectEndpoint_cases env st nseConn with ⟨ep, -, -, hl, h⟩ | ⟨cc1, -, h⟩
  · rw [h] at hsel
    simp only [Prod.mk.injEq] at hsel
    obtain ⟨h1, h2⟩ := hsel
    subst h1 h2
    exact ⟨rfl, rfl, rfl, Or.inl ⟨ep, rfl, rfl,
      (lookup_eq_none_iff_not_mem_keys _ _).1 hl⟩⟩
  · rw [h] at hsel
    simp only [Prod.mk.injEq] at hsel
    obtain ⟨h1, h2⟩ := hsel
    subst h1 h2
    exact ⟨rfl, rfl, rfl, Or.inr ⟨rfl, rfl, rfl⟩⟩

/-! ## The endpoint selector: exclusion of failed endpoints -/

theorem ExclusionInv.cons_getEndpoint {W : Type} {env : Env W} {ignore0 : IgnoreMap}
    {log : List Event} {ig : IgnoreMap} (h : ExclusionInv env ignore0 log ig)
    (nc : Option Connection) (res : Result NSERegistration) :
    ExclusionInv env ignore0 (Event.GetEndpoint nc ig res :: log) ig := by
  obtain ⟨h1, h2, h3, h4⟩ := h
  refine ⟨List.pairwise_cons.2 ⟨fun x hx => ?_, h1⟩, ?_, ?_, h4⟩
  · cases x with
    | GetEndpoint nc2 m2 res2 => exact h3 nc2 m2 res2 hx
    | _ => trivial
  · intro c r e hmem
    rcases List.mem_cons.1 hmem with heq | hmem
    · cases heq
    · exact h2 c r e hmem
  · intro nc2 m res2 hmem
    rcases List.mem_cons.1 hmem with heq | hmem
    · cases heq
      exact fun _ hx => hx
    · exact h3 nc2 m res2 hmem

theorem ExclusionInv.cons_processClose {W : Type} {env : Env W} {ignore0 : IgnoreMap}
    {log : List Event} {ig : IgnoreMap} (h : ExclusionInv env ignore0 log ig)
    (ctx : Ctx) (conn : Option Connection) (err : Option Error) :
    ExclusionInv env ignore0 (Event.ProcessClose ctx conn err :: log) ig := by
  obtain ⟨h1, h2, h3, h4⟩ := h
  refine ⟨List.pairwise_cons.2 ⟨fun x _ => trivial, h1⟩, ?_, ?_, h4⟩
  · intro c r e hmem
    rcases List.mem_cons.1 hmem with heq | hmem
    · cases heq
    · exact h2 c r e hmem
  · intro nc2 m res2 hmem
    rcases List.mem_cons.1 hmem with heq | hmem
    · cases heq
    · exact h3 nc2 m res2 hmem

theorem ExclusionInv.cons_processNext_ok {W : Type} {env : Env W} {ignore0 : IgnoreMap}
    {log : List Event} {ig : IgnoreMap} (h : ExclusionInv env ignore0 log ig)
    (ctx : Ctx) (r : NetworkServiceRequest)
    (hfresh : env.GetEndpointNSMName ctx.Endpoint ∉ ig.keys) :
    ExclusionInv env ignore0 (Event.ProcessNext ctx r none :: log) ig := by
  obtain ⟨h1, h2, h3, h4⟩ := h
  refine ⟨List.pairwise_cons.2 ⟨fun x hx => ?_, h1⟩, ?_, ?_, h4⟩
  · cases x with
    | ProcessNext c2 r2 e2 =>
      cases e2 with
      | none => trivial
      | some e =>
        intro heq
        exact hfresh (heq ▸ h2 c2 r2 e hx)
    | _ => trivial
  · intro c r e hmem
    rcases List.mem_cons.1 hmem with heq | hmem
    · cases heq
    · exact h2 c r e hmem
  · intro nc2 m res2 hmem
    rcases List.mem_cons.1 hmem with heq | hmem
    · cases heq
    · exact h3 nc2 m res2 hmem

theorem ExclusionInv.cons_processNext_error {W : Type} {env : Env W} {ignore0 : IgnoreMap}
    {log : List Event} {ig : IgnoreMap} (h : ExclusionInv env ignore0 log ig)
    (ctx : Ctx) (r : NetworkServiceRequest) (err : Error) (ep : NSERegistration)
    (hep : ctx.Endpoint = some ep)
    (hfresh : env.GetEndpointNSMName (some ep) ∉ ig.keys) :
    ExclusionInv env ignore0 (Event.ProcessNext ctx r (some err) :: log)
      (ig.set (env.GetEndpointNSMName (some ep)) ep) := by
  obtain ⟨h1, h2, h3, h4⟩ := h
  have hgrow : ig.keys ⊆ (ig.set (env.GetEndpointNSMName (some ep)) ep).keys := by
    intro x hx
    simp only [IgnoreMap.set, IgnoreMap.keys, List.map_cons, List.mem_cons]
    exact Or.inr hx
  refine ⟨List.pairwise_cons.2 ⟨fun x hx => ?_, h1⟩, ?_, ?_, fun x hx => hgrow (h4 hx)⟩
  · cases x with
    | ProcessNext c2 r2 e2 =>
      cases e2 with
      | none => trivial
      | some e =>
        intro heq
        rw [hep] at heq
        exact hfresh (heq ▸ h2 c2 r2 e hx)
    | _ => trivial
  · intro c r2 e hmem
    rcases List.mem_cons.1 hmem with heq | hmem
    · cases heq
      rw [hep]
      simp [IgnoreMap.set, IgnoreMap.keys]
    · exact hgrow (h2 c r2 e hmem)
  · intro nc2 m res2 hmem
    rcases List.mem_cons.1 hmem with heq | hmem
    · cases heq
    · exact fun x hx => hgrow (h3 nc2 m res2 hmem hx)

/-- The retry loop keeps the exclusion invariant, whatever way it ends. -/
theorem requestLoop_exclusionInv {W : Type} (env : Env W)
    (hexcl : ∀ w c m e, (env.GetEndpoint w c m).1 = Result.ok e →
      env.GetEndpointNSMName (some e) ∉ m.keys)
    (ctx : Ctx) (ignore0 : IgnoreMap) (bound : Nat) (st : SelState W)
    (h : ExclusionInv env ignore0 st.log st.ignoreEndpoints) :
    ExclusionInv env ignore0 (requestLoop env ctx bound st).2.log
      (requestLoop env ctx bound st).2.ignoreEndpoints := by
  induction bound generalizing st with
  | zero => exact h
  | succ n ih =>
    cases hsel : selectEndpoint env st st.request.Connection with
    | mk res st1 =>
    obtain ⟨hig, -, -, hcase⟩ := selectEndpoint_spec env st st1 _ res hsel
    have hinv1 : ExclusionInv env ignore0 st1.log st1.ignoreEndpoints := by
      rcases hcase with ⟨ep, -, hst, -⟩ | ⟨-, -, hlog⟩
      · rw [hst]; exact h
      · rw [hlog, hig]; exact h.cons_getEndpoint _ _
    cases res with
    | error e =>
      simp only [requestLoop, attempt_of_select_error env ctx st st1 e hsel]
      exact hinv1
    | ok ep =>
      have hfresh : env.GetEndpointNSMName (some ep) ∉ st1.ignoreEndpoints.keys := by
        rw [hig]
        rcases hcase with ⟨ep1, hep, -, hnot⟩ | ⟨hres, -, -⟩
        · cases hep
          exact hnot
        · exact hexcl _ _ _ ep hres.symm
      cases hc : st.request.Connection with
      | none =>
        simp only [requestLoop, attempt_of_nil_connection env ctx st st1 ep hsel hc]
        exact hinv1
      | some c =>
        cases hto : checkTimeout env st1.world with
        | some err =>
          simp only [requestLoop, attempt_of_timeout env ctx st st1 ep c err hsel hc hto]
          exact hinv1
        | none =>
          cases hnext : (env.ProcessNext st1.world { ctx with Endpoint := some ep }
              { st.request with Connection := some (ensureContext c) }).1.2 with
          | some err =>
            simp only [requestLoop,
              attempt_of_next_error env ctx st st1 ep c err hsel hc hto hnext]
            apply ih
            exact hinv1.cons_processNext_error _ _ err ep rfl hfresh
          | none =>
            simp only [requestLoop, attempt_of_next_ok env ctx st st1 ep c hsel hc hto hnext]
            exact hinv1.cons_processNext_ok _ _ hfresh

theorem checkNSEUpdateIsRequired_spec {W : Type} (env : Env W) (ctx : Ctx) (st : SelState W) :
    (checkNSEUpdateIsRequired env ctx st).2.ignoreEndpoints = st.ignoreEndpoints ∧
      (checkNSEUpdateIsRequired env ctx st).2.lastError = st.lastError ∧
      (checkNSEUpdateIsRequired env ctx st).2.request = st.request ∧
      (checkNSEUpdateIsRequired env ctx st).2.clientConnection = st.clientConnection ∧
      ((checkNSEUpdateIsRequired env ctx st).2.log = st.log ∨
        ∃ conn err, (checkNSEUpdateIsRequired env ctx st).2.log
          = Event.ProcessClose ctx conn err :: st.log) := by
  unfold checkNSEUpdateIsRequired
  split
  · split
    · exact ⟨rfl, rfl, rfl, rfl, Or.inr ⟨_, _, rfl⟩⟩
    · exact ⟨rfl, rfl, rfl, rfl, Or.inl rfl⟩
  · exact ⟨rfl, rfl, rfl, rfl, Or.inl rfl⟩

theorem checkUpdateConnectionContext_spec {W : Type} (env : Env W) (ctx : Ctx)
    (st : SelState W) :
    (checkUpdateConnectionContext env ctx st).2.ignoreEndpoints = st.ignoreEndpoints ∧
      ((checkUpdateConnectionContext env ctx st).2.log = st.log ∨
        ∃ conn err, (checkUpdateConnectionContext env ctx st).2.log
          = Event.ProcessClose ctx conn err :: st.log) := by
  unfold checkUpdateConnectionContext
  simp only
  split
  · split
    · exact ⟨rfl, Or.inr ⟨_, _, rfl⟩⟩
    · exact ⟨rfl, Or.inl rfl⟩
  · split
    · exact ⟨rfl, Or.inr ⟨_, _, rfl⟩⟩
    · split
      · exact ⟨rfl, Or.inl rfl⟩
      · exact ⟨rfl, Or.inl rfl⟩

/-- C5: within one call of `endpointSelectorService.Request`, under the hypothesis that
`GetEndpoint` never returns an endpoint whose `EndpointNSMName` is a key of the exclusion
map passed to it, no request is forwarded (`ProcessNext`) for an endpoint whose
`EndpointNSMName` equals that of an endpoint for which an earlier `ProcessNext` of the
call failed, whether the endpoint was reused from the healing connection or freshly
selected (this is `NoRetryOf` between every later and every earlier entry of the log);
and the exclusion map only grows: every map passed to `GetEndpoint` has the keys of the
maps passed before, and the map at the end has the keys of the map at the start. -/
theorem C5_exclusion_monotonicity {W : Type} (env : Env W)
    (hexcl : ∀ w c m e, (env.GetEndpoint w c m).1 = Result.ok e →
      env.GetEndpointNSMName (some e) ∉ m.keys)
    (bound : Nat) (ctx : Ctx) (w : W) (request : NetworkServiceRequest)
    (cc : ClientConnection) (ignoreEndpoints : IgnoreMap) :
    ∃ st, (Request env bound ctx w request (some cc) ignoreEndpoints).2 = some st ∧
      List.Pairwise (NoRetryOf env) st.log ∧
      ignoreEndpoints.keys ⊆ st.ignoreEndpoints.keys := by
  refine ⟨_, rfl, ?_⟩
  have h0 : ExclusionInv env ignoreEndpoints
      (SelState.init w request cc ignoreEndpoints).log
      (SelState.init w request cc ignoreEndpoints).ignoreEndpoints :=
    ⟨List.Pairwise.nil, fun _ _ _ hm => by simp [SelState.init] at hm,
      fun _ _ _ hm => by simp [SelState.init] at hm, fun _ hx => hx⟩
  obtain ⟨hig, -, -, -, hlog⟩ :=
    checkNSEUpdateIsRequired_spec env ctx (SelState.init w request cc ignoreEndpoints)
  have h1 : ExclusionInv env ignoreEndpoints
      (checkNSEUpdateIsRequired env ctx (SelState.init w request cc ignoreEndpoints)).2.log
      (checkNSEUpdateIsRequired env ctx
        (SelState.init w request cc ignoreEndpoints)).2.ignoreEndpoints := by
    rw [hig]
    rcases hlog with hlog | ⟨conn, err, hlog⟩
    · rw [hlog]; exact h0
    · rw [hlog]; exact h0.cons_processClose _ _ _
  have h2 : ExclusionInv env ignoreEndpoints
      (RequestBound env bound ctx (SelState.init w request cc ignoreEndpoints)).2.log
      (RequestBound env bound ctx
        (SelState.init w request cc ignoreEndpoints)).2.ignoreEndpoints := by
    unfold RequestBound
    simp only
    split
    · obtain ⟨hig2, hlog2⟩ := checkUpdateConnectionContext_spec env ctx
        (checkNSEUpdateIsRequired env ctx (SelState.init w request cc ignoreEndpoints)).2
      rw [hig2]
      rcases hlog2 with hlog2 | ⟨conn, err, hlog2⟩
      · rw [hlog2]; exact h1
      · rw [hlog2]; exact h1.cons_processClose _ _ _
    · exact requestLoop_exclusionInv env hexcl ctx ignoreEndpoints bound _ h1
  exact ⟨h2.1, h2.2.2.2⟩

/-- The scripted `GetEndpoint` never returns an endpoint whose name is a key of the
exclusion map passed to it. -/
theorem scriptEnv_excludes (s : Script) (w : Nat) (c : Option Connection) (m : IgnoreMap)
    (e : NSERegistration) (h : ((scriptEnv s).GetEndpoint w c m).1 = Result.ok e) :
    (scriptEnv s).GetEndpointNSMName (some e) ∉ m.keys := by
  show scriptName (some e) ∉ m.keys
  have h1 : (match s.candidates.find? (fun e => decide (scriptName (some e) ∉ m.keys)) with
      | some e => (Result.ok e, w + 1)
      | none => (Result.error "no endpoint left", w + 1)).1 = Result.ok e := h
  split at h1
  · rename_i e1 hf
    simp only [Result.ok.injEq] at h1
    subst h1
    have := List.find?_some hf
    simpa using this
  · simp at h1

/-- Witness of C5: a healing connection whose endpoint `nse-1` is refused downstream, as
is the candidate `nse-2`; the third attempt forwards `nse-3`. -/
theorem C5_exclusion_monotonicity_witness :
    ∃ st, (Request
        (scriptEnv { remote := true,
                     candidates := [demoEndpoint "nse-1", demoEndpoint "nse-2", demoEndpoint "nse-3"],
                     failing := ["nse-1@10.0.0.1:5001", "nse-2@10.0.0.1:5001"] })
        5 emptyCtx 0 (demoRequest (demoMechanism "200"))
        (some (demoClientConnection ClientConnectionState.ClientConnectionHealing 0)) []).2
        = some st ∧
      List.Pairwise
        (NoRetryOf (scriptEnv
          { remote := true,
            candidates := [demoEndpoint "nse-1", demoEndpoint "nse-2", demoEndpoint "nse-3"],
            failing := ["nse-1@10.0.0.1:5001", "nse-2@10.0.0.1:5001"] })) st.log ∧
      IgnoreMap.keys [] ⊆ st.ignoreEndpoints.keys :=
  C5_exclusion_monotonicity
    (scriptEnv { remote := true,
                 candidates := [demoEndpoint "nse-1", demoEndpoint "nse-2", demoEndpoint "nse-3"],
                 failing := ["nse-1@10.0.0.1:5001", "nse-2@10.0.0.1:5001"] })
    (scriptEnv_excludes _) 5 emptyCtx 0 (demoRequest (demoMechanism "200"))
    (demoClientConnection ClientConnectionState.ClientConnectionHealing 0) []

/-! ## The endpoint selector: the error after a failed selection -/

/-- When the retry loop ends with a failed `GetEndpoint` as the most recent outside call
and a failed `ProcessNext` right before it, the loop has returned the combination of the
two errors. -/
theorem requestLoop_lastError {W : Type} (env : Env W) (ctx : Ctx) (bound : Nat)
    (st : SelState W) (h : LastErrorLogged st)
    (nc : Option Connection) (ig : IgnoreMap) (e2 : Error) (c : Ctx)
    (r : NetworkServiceRequest) (e1 : Error) (T : List Event)
    (hlog : (requestLoop env ctx bound st).2.log
      = Event.GetEndpoint nc ig (Result.error e2) :: Event.ProcessNext c r (some e1) :: T) :
    (requestLoop env ctx bound st).1
      = Outcome.returned (combineErrors (some e1) (some e2)) := by
  induction bound generalizing st with
  | zero =>
    simp only [requestLoop] at hlog
    simp [LastErrorLogged, hlog] at h
  | succ n ih =>
    cases hsel : selectEndpoint env st st.request.Connection with
    | mk res st1 =>
    obtain ⟨-, hle, -, hcase⟩ := selectEndpoint_spec env st st1 _ res hsel
    cases res with
    | error e =>
      simp only [requestLoop, attempt_of_select_error env ctx st st1 e hsel] at hlog ⊢
      rcases hcase with ⟨ep, hep, -, -⟩ | ⟨-, -, hlog1⟩
      · cases hep
      · rw [hlog1] at hlog
        simp only [List.cons.injEq, Event.GetEndpoint.injEq, Result.error.injEq] at hlog
        obtain ⟨⟨-, -, he⟩, hst⟩ := hlog
        subst he
        have hl : st.lastError = some e1 := by
          simpa [LastErrorLogged, hst] using h
        rw [hl]
    | ok ep =>
      have hnot : st1.log
          ≠ Event.GetEndpoint nc ig (Result.error e2) :: Event.ProcessNext c r (some e1) :: T := by
        intro hl1
        rcases hcase with ⟨ep1, -, hst, -⟩ | ⟨-, -, hlog1⟩
        · rw [hst] at hl1
          simp [LastErrorLogged, hl1] at h
        · rw [hlog1] at hl1
          simp at hl1
      cases hc : st.request.Connection with
      | none =>
        simp only [requestLoop, attempt_of_nil_connection env ctx st st1 ep hsel hc] at hlog
        exact absurd hlog hnot
      | some conn =>
        cases hto : checkTimeout env st1.world with
        | some err =>
          simp only [requestLoop, attempt_of_timeout env ctx st st1 ep conn err hsel hc hto]
            at hlog
          exact absurd hlog hnot
        | none =>
          cases hnext : (env.ProcessNext st1.world { ctx with Endpoint := some ep }
              { st.request with Connection := some (ensureContext conn) }).1.2 with
          | some err =>
            simp only [requestLoop,
              attempt_of_next_error env ctx st st1 ep conn err hsel hc hto hnext] at hlog ⊢
            exact ih _ (by simp [LastErrorLogged]) hlog
          | none =>
            simp only [requestLoop,
              attempt_of_next_ok env ctx st st1 ep conn hsel hc hto hnext] at hlog
            simp at hlog

/-- C6: in `endpointSelectorService.Request`, if an attempt's `ProcessNext` failed with
error `e1` and the endpoint selection that follows it (the `GetEndpoint` call that is
next and last in the log of the call) fails with error `e2`, then `Request` returns a nil
connection and the error `NSM:(7.1.5) e1. Last NSE Error: e2`, whose message contains
the text of `e1` and the text of `e2`. -/
theorem C6_error_combination {W : Type} (env : Env W) (bound : Nat) (ctx : Ctx) (w : W)
    (request : NetworkServiceRequest) (cc : ClientConnection) (ignoreEndpoints : IgnoreMap)
    (nc : Option Connection) (ig : IgnoreMap) (e2 : Error) (c : Ctx)
    (r : NetworkServiceRequest) (e1 : Error) (T : List Event)
    (hlog : (Request env bound ctx w request (some cc) ignoreEndpoints).2.map (fun st => st.log)
      = some (Event.GetEndpoint nc ig (Result.error e2) :: Event.ProcessNext c r (some e1) :: T)) :
    ∃ msg, (Request env bound ctx w request (some cc) ignoreEndpoints).1
        = Outcome.returned (ConnRef.null, some msg) ∧
      msg = "NSM:(7.1.5) " ++ e1 ++ ". Last NSE Error: " ++ e2 ∧
      e1.data <:+: msg.data ∧ e2.data <:+: msg.data := by
  refine ⟨"NSM:(7.1.5) " ++ e1 ++ ". Last NSE Error: " ++ e2, ?_, rfl, ?_, ?_⟩
  · simp only [Request, Option.map_some', Option.some.injEq] at hlog ⊢
    unfold RequestBound at hlog ⊢
    simp only at hlog ⊢
    obtain ⟨-, hle, -, -, hlog0⟩ :=
      checkNSEUpdateIsRequired_spec env ctx (SelState.init w request cc ignoreEndpoints)
    split at hlog
    · exfalso
      obtain ⟨-, hlog2⟩ := checkUpdateConnectionContext_spec env ctx
        (checkNSEUpdateIsRequired env ctx (SelState.init w request cc ignoreEndpoints)).2
      rcases hlog2 with hlog2 | ⟨conn, err, hlog2⟩
      · rw [hlog2] at hlog
        rcases hlog0 with hlog0 | ⟨conn, err, hlog0⟩
        · rw [hlog0] at hlog
          simp [SelState.init] at hlog
        · rw [hlog0] at hlog
          simp at hlog
      · rw [hlog2] at hlog
        simp at hlog
    · rename_i hcond
      rw [if_neg hcond]
      have hhead : LastErrorLogged
          (checkNSEUpdateIsRequired env ctx (SelState.init w request cc ignoreEndpoints)).2 := by
        rcases hlog0 with hlog0 | ⟨conn, err, hlog0⟩
        · unfold LastErrorLogged
          rw [hlog0]
          simp [SelState.init]
        · unfold LastErrorLogged
          rw [hlog0]
          simp
      have := requestLoop_lastError env ctx bound _ hhead nc ig e2 c r e1 T hlog
      rw [this]
      rfl
  · exact ⟨"NSM:(7.1.5) ".data, (". Last NSE Error: " ++ e2).data, by simp [String.data_append]⟩
  · exact ⟨("NSM:(7.1.5) " ++ e1 ++ ". Last NSE Error: ").data, [], by simp [String.data_append]⟩

/-- Witness of C6: one candidate that the rest of the pipeline refuses; the second
selection finds no endpoint left. -/
theorem C6_error_combination_witness :
    ∃ msg, (Request (scriptEnv { candidates := [demoEndpoint "nse-1"],
                                 failing := ["nse-1@10.0.0.1:5001"] })
          5 emptyCtx 0 (demoRequest (demoMechanism "100"))
          (some (demoClientConnection ClientConnectionState.ClientConnectionReady 0)) []).1
        = Outcome.returned (ConnRef.null, some msg) ∧
      msg = "NSM:(7.1.5) " ++ "refused by nse-1@10.0.0.1:5001" ++ ". Last NSE Error: "
        ++ "no endpoint left" ∧
      ("refused by nse-1@10.0.0.1:5001" : String).data <:+: msg.data ∧
      ("no endpoint left" : String).data <:+: msg.data :=
  C6_error_combination (scriptEnv { candidates := [demoEndpoint "nse-1"],
                                    failing := ["nse-1@10.0.0.1:5001"] })
    5 emptyCtx 0 (demoRequest (demoMechanism "100"))
    (demoClientConnection ClientConnectionState.ClientConnectionReady 0) []
    (some (demoConnection "1" none)) [("nse-1@10.0.0.1:5001", demoEndpoint "nse-1")]
    "no endpoint left"
    { Forwarder := none, Endpoint := some (demoEndpoint "nse-1"), RemoteMechanisms := [] }
    (demoRequest (demoMechanism "100")) "refused by nse-1@10.0.0.1:5001"
    [Event.GetEndpoint (some (demoConnection "1" none)) [] (Result.ok (demoEndpoint "nse-1"))]
    (by decide)

/-! ## The endpoint selector: the deadline -/

/-- C7, as the claim states it, fails: the caller's context has expired before the first
attempt begins and the endpoint selection of that attempt fails; `Request` then returns
the error of the selection (in the wording of `combineErrors`), not the timeout error,
because the deadline is checked after the selection. -/
theorem C7_selection_error_before_timeout :
    (scriptEnv { deadline := 0 }).ctxErr 0 = some "context deadline exceeded" ∧
    (Request (scriptEnv { deadline := 0 }) 5 emptyCtx 0 (demoRequest (demoMechanism "100"))
        (some (demoClientConnection ClientConnectionState.ClientConnectionReady 0)) []).1
      = Outcome.returned
          (ConnRef.null, some "NSM:(7.1.5) <nil>. Last NSE Error: no endpoint left") ∧
    checkTimeout (scriptEnv { deadline := 0 }) 0
      = some "NSM:(7.1.0) Context timeout, during find/call NSE... context deadline exceeded" := by
  decide

/-- C7, amended: in every attempt of the retry loop of `Request` (the first one and every
retry) on a request that carries a connection, if the caller's context has already
expired when the attempt begins (and, as contexts do, stays expired), `Request` ends in
that attempt with a nil connection and an error, and `ProcessNext` is called neither in
that attempt nor afterwards; the error is the timeout error `NSM:(7.1.0) Context
timeout, ...` when the endpoint selection of the attempt succeeded, and the error of
the selection, in the wording of `combineErrors`, when it failed. -/
theorem C7_deadline_checked_every_attempt {W : Type} (env : Env W) (ctx : Ctx) (bound : Nat)
    (st : SelState W) (e0 : Error)
    (hexp : env.ctxErr st.world = some e0)
    (hstay : ∀ w c m, env.ctxErr w = some e0 → env.ctxErr (env.GetEndpoint w c m).2 = some e0)
    (hconn : st.request.Connection ≠ none) :
    ∃ err st1, requestLoop env ctx (bound + 1) st
        = (Outcome.returned (ConnRef.null, some err), st1) ∧
      (∀ c r e, Event.ProcessNext c r e ∈ st1.log → Event.ProcessNext c r e ∈ st.log) ∧
      (∀ ep, (selectEndpoint env st st.request.Connection).1 = Result.ok ep →
        err = "NSM:(7.1.0) Context timeout, during find/call NSE... " ++ e0) ∧
      (∀ e, (selectEndpoint env st st.request.Connection).1 = Result.error e →
        err = "NSM:(7.1.5) " ++ fmtError st.lastError ++ ". Last NSE Error: " ++ e) := by
  cases hsel : selectEndpoint env st st.request.Connection with
  | mk res st1 =>
  obtain ⟨-, -, -, hcase⟩ := selectEndpoint_spec env st st1 _ res hsel
  have hlog : ∀ c r e, Event.ProcessNext c r e ∈ st1.log → Event.ProcessNext c r e ∈ st.log := by
    intro c r e hmem
    rcases hcase with ⟨ep, -, hst, -⟩ | ⟨-, -, hlog1⟩
    · rw [hst] at hmem; exact hmem
    · rw [hlog1] at hmem
      rcases List.mem_cons.1 hmem with heq | hmem
      · cases heq
      · exact hmem
  have hexp1 : env.ctxErr st1.world = some e0 := by
    rcases hcase with ⟨ep, -, hst, -⟩ | ⟨-, hw, -⟩
    · rw [hst]; exact hexp
    · rw [hw]; exact hstay _ _ _ hexp
  cases res with
  | error e =>
    refine ⟨"NSM:(7.1.5) " ++ fmtError st.lastError ++ ". Last NSE Error: " ++ e, st1, ?_,
      hlog, ?_, ?_⟩
    · simp only [requestLoop, attempt_of_select_error env ctx st st1 e hsel]
      rfl
    · intro ep hep
      cases hep
    · intro e1 he1
      cases he1
      rfl
  | ok ep =>
    cases hc : st.request.Connection with
    | none => exact absurd hc hconn
    | some conn =>
      have hto : checkTimeout env st1.world
          = some ("NSM:(7.1.0) Context timeout, during find/call NSE... " ++ e0) := by
        simp [checkTimeout, hexp1]
      refine ⟨"NSM:(7.1.0) Context timeout, during find/call NSE... " ++ e0, st1, ?_,
        hlog, ?_, ?_⟩
      · simp only [requestLoop, attempt_of_timeout env ctx st st1 ep conn _ hsel hc hto]
      · intro _ _
        rfl
      · intro e he
        cases he

/-- Witness of C7: the context expires while the first attempt is refused downstream; the
second attempt, which begins with the context expired, selects `nse-2` and ends with the
timeout error. -/
theorem C7_deadline_checked_every_attempt_witness :
    ∃ err st1, requestLoop (scriptEnv { deadline := 1, candidates := [demoEndpoint "nse-2"] })
          emptyCtx (3 + 1)
          { world := 2, log := [], request := demoRequest (demoMechanism "100"),
            clientConnection := demoClientConnection ClientConnectionState.ClientConnectionReady 0,
            ignoreEndpoints := [("nse-1@10.0.0.1:5001", demoEndpoint "nse-1")],
            lastError := some "refused by nse-1@10.0.0.1:5001" }
        = (Outcome.returned (ConnRef.null, some err), st1) ∧
      (∀ c r e, Event.ProcessNext c r e ∈ st1.log → Event.ProcessNext c r e ∈ ([] : List Event)) ∧
      (∀ ep, (selectEndpoint (scriptEnv { deadline := 1, candidates := [demoEndpoint "nse-2"] })
          { world := 2, log := [], request := demoRequest (demoMechanism "100"),
            clientConnection := demoClientConnection ClientConnectionState.ClientConnectionReady 0,
            ignoreEndpoints := [("nse-1@10.0.0.1:5001", demoEndpoint "nse-1")],
            lastError := some "refused by nse-1@10.0.0.1:5001" }
          (demoRequest (demoMechanism "100")).Connection).1 = Result.ok ep →
        err = "NSM:(7.1.0) Context timeout, during find/call NSE... "
          ++ "context deadline exceeded") ∧
      (∀ e, (selectEndpoint (scriptEnv { deadline := 1, candidates := [demoEndpoint "nse-2"] })
          { world := 2, log := [], request := demoRequest (demoMechanism "100"),
            clientConnection := demoClientConnection ClientConnectionState.ClientConnectionReady 0,
            ignoreEndpoints := [("nse-1@10.0.0.1:5001", demoEndpoint "nse-1")],
            lastError := some "refused by nse-1@10.0.0.1:5001" }
          (demoRequest (demoMechanism "100")).Connection).1 = Result.error e →
        err = "NSM:(7.1.5) " ++ fmtError (some "refused by nse-1@10.0.0.1:5001")
          ++ ". Last NSE Error: " ++ e) :=
  C7_deadline_checked_every_attempt
    (scriptEnv { deadline := 1, candidates := [demoEndpoint "nse-2"] }) emptyCtx 3
    { world := 2, log := [], request := demoRequest (demoMechanism "100"),
      clientConnection := demoClientConnection ClientConnectionState.ClientConnectionReady 0,
      ignoreEndpoints := [("nse-1@10.0.0.1:5001", demoEndpoint "nse-1")],
      lastError := some "refused by nse-1@10.0.0.1:5001" }
    "context deadline exceeded" (by decide)
    (fun w c m h => by
      have hw : 1 ≤ w := by
        by_contra hlt
        have hf : (scriptEnv { deadline := 1, candidates := [demoEndpoint "nse-2"] }).ctxErr w
            = none := by
          simp only [scriptEnv]
          rw [if_neg hlt]
        rw [hf] at h
        cases h
      have h2 : ((scriptEnv { deadline := 1, candidates := [demoEndpoint "nse-2"] }).GetEndpoint
          w c m).2 = w + 1 := by
        simp only [scriptEnv]
        split <;> rfl
      rw [h2]
      simp only [scriptEnv]
      rw [if_pos (by omega)])
    (by decide)

/-! ## The endpoint selector: re-selection while healing -/

/-- The retry loop only adds to the log. -/
theorem requestLoop_log_suffix {W : Type} (env : Env W) (ctx : Ctx) (bound : Nat)
    (st : SelState W) : st.log <:+ (requestLoop env ctx bound st).2.log := by
  induction bound generalizing st with
  | zero => exact List.suffix_refl _
  | succ n ih =>
    cases hsel : selectEndpoint env st st.request.Connection with
    | mk res st1 =>
    obtain ⟨-, -, -, hcase⟩ := selectEndpoint_spec env st st1 _ res hsel
    have h1 : st.log <:+ st1.log := by
      rcases hcase with ⟨ep, -, hst, -⟩ | ⟨-, -, hlog1⟩
      · rw [hst]
      · rw [hlog1]; exact List.suffix_cons _ _
    cases res with
    | error e =>
      simp only [requestLoop, attempt_of_select_error env ctx st st1 e hsel]
      exact h1
    | ok ep =>
      cases hc : st.request.Connection with
      | none =>
        simp only [requestLoop, attempt_of_nil_connection env ctx st st1 ep hsel hc]
        exact h1
      | some c =>
        cases hto : checkTimeout env st1.world with
        | some err =>
          simp only [requestLoop, attempt_of_timeout env ctx st st1 ep c err hsel hc hto]
          exact h1
        | none =>
          cases hnext : (env.ProcessNext st1.world { ctx with Endpoint := some ep }
              { st.request with Connection := some (ensureContext c) }).1.2 with
          | some err =>
            simp only [requestLoop,
              attempt_of_next_error env ctx st st1 ep c err hsel hc hto hnext]
            refine List.IsSuffix.trans ?_ (ih _)
            exact h1.trans (List.suffix_cons _ _)
          | none =>
            simp only [requestLoop, attempt_of_next_ok env ctx st st1 ep c hsel hc hto hnext]
            exact h1.trans (List.suffix_cons _ _)

/-- The first attempt of the retry loop forwards the request for the selected endpoint,
when the selection succeeds, the request carries a connection and the caller's context
has not expired. -/
theorem requestLoop_calls_ProcessNext {W : Type} (env : Env W) (ctx : Ctx) (bound : Nat)
    (st st1 : SelState W) (ep : NSERegistration) (c : Connection)
    (hsel : selectEndpoint env st st.request.Connection = (Result.ok ep, st1))
    (hc : st.request.Connection = some c) (hto : checkTimeout env st1.world = none) :
    ∃ err, Event.ProcessNext { ctx with Endpoint := some ep }
        { st.request with Connection := some (ensureContext c) } err
      ∈ (requestLoop env ctx (bound + 1) st).2.log := by
  cases hnext : (env.ProcessNext st1.world { ctx with Endpoint := some ep }
      { st.request with Connection := some (ensureContext c) }).1.2 with
  | some err =>
    refine ⟨some err, ?_⟩
    simp only [requestLoop, attempt_of_next_error env ctx st st1 ep c err hsel hc hto hnext]
    exact (requestLoop_log_suffix env ctx bound _).subset (List.mem_cons_self _ _)
  | none =>
    refine ⟨none, ?_⟩
    simp only [requestLoop, attempt_of_next_ok env ctx st st1 ep c hsel hc hto hnext]
    exact List.mem_cons_self _ _

/-- C4, as the claim states it, fails.  First: the tracked destination is not remote;
with a healing connection, the same network service name and context, and a requested
mechanism that differs from the tracked one in the value of `vni`,
`checkNeedNSERequest` returns false and `Request` takes the fast path without any
outside call.  Second: the tracked destination is remote, so re-selection is required,
but the caller's context has expired: `Request` returns the timeout error and
`ProcessNext` is not called. -/
theorem C4_local_destination_not_compared :
    (checkNeedNSERequest (scriptEnv { remote := false }) (demoRequest (demoMechanism "200"))
        (demoClientConnection ClientConnectionState.ClientConnectionHealing 0) = false ∧
      (Request (scriptEnv { remote := false }) 5 emptyCtx 0 (demoRequest (demoMechanism "200"))
          (some (demoClientConnection ClientConnectionState.ClientConnectionHealing 0)) []).1
        = Outcome.returned (ConnRef.requestConnection, none) ∧
      (Request (scriptEnv { remote := false }) 5 emptyCtx 0 (demoRequest (demoMechanism "200"))
          (some (demoClientConnection ClientConnectionState.ClientConnectionHealing 0)) []).2.map
          (fun st => st.log) = some []) ∧
    (checkNeedNSERequest (scriptEnv { remote := true, deadline := 0 })
        (demoRequest (demoMechanism "200"))
        (demoClientConnection ClientConnectionState.ClientConnectionHealing 0) = true ∧
      (Request (scriptEnv { remote := true, deadline := 0 }) 5 emptyCtx 0
          (demoRequest (demoMechanism "200"))
          (some (demoClientConnection ClientConnectionState.ClientConnectionHealing 0)) []).1
        = Outcome.returned (ConnRef.null,
            some "NSM:(7.1.0) Context timeout, during find/call NSE... context deadline exceeded") ∧
      (Request (scriptEnv { remote := true, deadline := 0 }) 5 emptyCtx 0
          (demoRequest (demoMechanism "200"))
          (some (demoClientConnection ClientConnectionState.ClientConnectionHealing 0)) []).2.map
          (fun st => st.log) = some []) := by
  decide

/-- C4, amended: for every `ClientConnection` in the Healing state whose tracked
destination connection is remote, and every request with the same network service name
(whatever its context), if the requested mechanism (the first mechanism preference whose
type equals the tracked destination mechanism's type, with a well-formed parameter map)
reads differently from the tracked destination mechanism at some parameter,
`checkNeedNSERequest` returns true, so `Request` does not take the fast path: it is the
retry loop started on the state of the call, and the first attempt of the loop selects an
endpoint and, when that selection succeeds, the request carries a connection and the
caller's context has not expired, calls `ProcessNext` for the selected endpoint. -/
theorem C4_healing_reselection {W : Type} (env : Env W) (bound : Nat) (ctx : Ctx) (w : W)
    (request : NetworkServiceRequest) (cc : ClientConnection) (ignoreEndpoints : IgnoreMap)
    (reqM : Mechanism) (k : String)
    (hheal : cc.ConnectionState = ClientConnectionState.ClientConnectionHealing)
    (hns : GetNetworkService request.Connection = cc.NetworkService)
    (hremote : env.IsRemote cc.Xcon.Destination = true)
    (hfind : findMechanism request.MechanismPreferences (GetType cc.Xcon.Destination.Mechanism)
      = some reqM)
    (hnodup : (reqM.Parameters.map Prod.fst).Nodup)
    (hdiff : paramAt reqM.Parameters k ≠ paramAt (GetParameters cc.Xcon.Destination.Mechanism) k) :
    checkNeedNSERequest env request cc = true ∧
      Request env bound ctx w request (some cc) ignoreEndpoints
        = ((requestLoop env ctx bound (SelState.init w request cc ignoreEndpoints)).1,
            some (requestLoop env ctx bound (SelState.init w request cc ignoreEndpoints)).2) ∧
      (∀ ep st1 c,
        selectEndpoint env (SelState.init w request cc ignoreEndpoints) request.Connection
          = (Result.ok ep, st1) →
        request.Connection = some c → checkTimeout env st1.world = none →
        ∃ st err, (Request env (bound + 1) ctx w request (some cc) ignoreEndpoints).2 = some st ∧
          Event.ProcessNext { ctx with Endpoint := some ep }
            { request with Connection := some (ensureContext c) } err ∈ st.log) := by
  have hneed : checkNeedNSERequest env request cc = true :=
    checkNeedNSERequest_param_differs env request cc reqM k hremote hfind hnodup hdiff
  have hcheck : checkNSEUpdateIsRequired env ctx (SelState.init w request cc ignoreEndpoints)
      = (true, SelState.init w request cc ignoreEndpoints) := by
    simp [checkNSEUpdateIsRequired, SelState.init, hheal, hns, hneed]
  have hreq : ∀ b, Request env b ctx w request (some cc) ignoreEndpoints
      = ((requestLoop env ctx b (SelState.init w request cc ignoreEndpoints)).1,
          some (requestLoop env ctx b (SelState.init w request cc ignoreEndpoints)).2) := by
    intro b
    simp [Request, RequestBound, hcheck]
  refine ⟨hneed, hreq bound, ?_⟩
  intro ep st1 c hsel hc hto
  obtain ⟨err, hmem⟩ := requestLoop_calls_ProcessNext env ctx bound
    (SelState.init w request cc ignoreEndpoints) st1 ep c hsel hc hto
  exact ⟨_, err, by rw [hreq (bound + 1)], hmem⟩

/-- Witness of C4: a remote destination tracked with `vni = 100` and a request that
prefers `vni = 200`. -/
theorem C4_healing_reselection_witness :
    checkNeedNSERequest (scriptEnv { remote := true }) (demoRequest (demoMechanism "200"))
        (demoClientConnection ClientConnectionState.ClientConnectionHealing 0) = true ∧
      Request (scriptEnv { remote := true }) 4 emptyCtx 0 (demoRequest (demoMechanism "200"))
          (some (demoClientConnection ClientConnectionState.ClientConnectionHealing 0)) []
        = ((requestLoop (scriptEnv { remote := true }) emptyCtx 4
              (SelState.init 0 (demoRequest (demoMechanism "200"))
                (demoClientConnection ClientConnectionState.ClientConnectionHealing 0) [])).1,
            some (requestLoop (scriptEnv { remote := true }) emptyCtx 4
              (SelState.init 0 (demoRequest (demoMechanism "200"))
                (demoClientConnection ClientConnectionState.ClientConnectionHealing 0) [])).2) ∧
      (∀ ep st1 c,
        selectEndpoint (scriptEnv { remote := true })
            (SelState.init 0 (demoRequest (demoMechanism "200"))
              (demoClientConnection ClientConnectionState.ClientConnectionHealing 0) [])
            (demoRequest (demoMechanism "200")).Connection
          = (Result.ok ep, st1) →
        (demoRequest (demoMechanism "200")).Connection = some c →
        checkTimeout (scriptEnv { remote := true }) st1.world = none →
        ∃ st err, (Request (scriptEnv { remote := true }) (4 + 1) emptyCtx 0
            (demoRequest (demoMechanism "200"))
            (some (demoClientConnection ClientConnectionState.ClientConnectionHealing 0)) []).2
            = some st ∧
          Event.ProcessNext { emptyCtx with Endpoint := some ep }
            { demoRequest (demoMechanism "200") with Connection := some (ensureContext c) } err
            ∈ st.log) :=
  C4_healing_reselection (scriptEnv { remote := true }) 4 emptyCtx 0
    (demoRequest (demoMechanism "200"))
    (demoClientConnection ClientConnectionState.ClientConnectionHealing 0) []
    (demoMechanism "200") "vni" rfl rfl rfl (by decide) (by decide) (by decide)

/-! ## The forwarder service -/

/-- C8: for every request that is not already addressed to a forwarder
(`isForwarderRequest` is false), if the model returns zero endpoints for the forwarder
service name `forwarder@localIP`, `forwarderService.Request` returns a nil connection and
the error `No forwarders found`, leaves the request (so `request.Connection`) and the
tracked connection unchanged, and makes no outside call: neither a forwarder client nor
`ProcessNext` is called. -/
theorem C8_no_forwarders {W : Type} (env : Env W) (ctx : Ctx) (st : FwdState W)
    (hfwd : isForwarderRequest st.request = false)
    (hnone : env.GetEndpointsByNetworkService st.world "forwarder@localIP" = []) :
    forwarderRequest env ctx st
        = (Outcome.returned (ConnRef.null, some "No forwarders found"), st) ∧
      (forwarderRequest env ctx st).2.request.Connection = st.request.Connection ∧
      (forwarderRequest env ctx st).2.clientConnection = st.clientConnection ∧
      (forwarderRequest env ctx st).2.log = st.log := by
  have hname : forwarderNamePrefix ++ "@" ++ "localIP" = "forwarder@localIP" := by decide
  have h : forwarderRequest env ctx st
      = (Outcome.returned (ConnRef.null, some "No forwarders found"), st) := by
    simp [forwarderRequest, hfwd, hname, hnone]
  rw [h]
  exact ⟨rfl, rfl, rfl, rfl⟩

/-- Witness of C8: a request without a path and a registry without forwarders. -/
theorem C8_no_forwarders_witness :
    forwarderRequest (scriptEnv { forwarders := [] }) emptyCtx
        { world := 0, log := [], request := demoRequest (demoMechanism "100"),
          clientConnection := some (demoClientConnection ClientConnectionState.ClientConnectionReady 0) }
        = (Outcome.returned (ConnRef.null, some "No forwarders found"),
            { world := 0, log := [], request := demoRequest (demoMechanism "100"),
              clientConnection :=
                some (demoClientConnection ClientConnectionState.ClientConnectionReady 0) }) ∧
      (forwarderRequest (scriptEnv { forwarders := [] }) emptyCtx
        { world := 0, log := [], request := demoRequest (demoMechanism "100"),
          clientConnection :=
            some (demoClientConnection ClientConnectionState.ClientConnectionReady 0) }).2.request.Connection
        = (demoRequest (demoMechanism "100")).Connection ∧
      (forwarderRequest (scriptEnv { forwarders := [] }) emptyCtx
        { world := 0, log := [], request := demoRequest (demoMechanism "100"),
          clientConnection :=
            some (demoClientConnection ClientConnectionState.ClientConnectionReady 0) }).2.clientConnection
        = some (demoClientConnection ClientConnectionState.ClientConnectionReady 0) ∧
      (forwarderRequest (scriptEnv { forwarders := [] }) emptyCtx
        { world := 0, log := [], request := demoRequest (demoMechanism "100"),
          clientConnection :=
            some (demoClientConnection ClientConnectionState.ClientConnectionReady 0) }).2.log
        = [] :=
  C8_no_forwarders (scriptEnv { forwarders := [] }) emptyCtx
    { world := 0, log := [], request := demoRequest (demoMechanism "100"),
      clientConnection := some (demoClientConnection ClientConnectionState.ClientConnectionReady 0) }
    (by decide) (by decide)

/-- C9: for every tracked `ClientConnection` whose `ForwarderState` is
`ForwarderStateNone`, `forwarderService.Close` calls `ProcessClose` and nothing else (no
`ForwarderConnection` call and no forwarder-client `Close` call is logged), leaves the
tracked connection, and so its `ForwarderState`, as it was, and returns exactly the value
and error that `ProcessClose` returned. -/
theorem C9_close_idempotent {W : Type} (env : Env W) (ctx : Ctx) (st : FwdState W)
    (cc : ClientConnection) (conn : Option Connection)
    (hcc : st.clientConnection = some cc)
    (hstate : cc.ForwarderState = ForwarderStateNone) :
    (forwarderClose env ctx st conn).1
        = Outcome.returned (env.ProcessClose st.world ctx conn).1 ∧
      (forwarderClose env ctx st conn).2.log
        = [Event.ProcessClose ctx conn (env.ProcessClose st.world ctx conn).1.2] ++ st.log ∧
      (forwarderClose env ctx st conn).2.clientConnection = some cc := by
  simp [forwarderClose, hcc, performClose, hstate]

/-- Witness of C9: a tracked connection with no forwarder programmed, and a downstream
close that fails. -/
theorem C9_close_idempotent_witness :
    (forwarderClose (scriptEnv { closeErr := some "downstream close failed" }) emptyCtx
        { world := 0, log := [], request := demoRequest (demoMechanism "100"),
          clientConnection :=
            some (demoClientConnection ClientConnectionState.ClientConnectionReady ForwarderStateNone) }
        (some (demoConnection "1" none))).1
        = Outcome.returned ((scriptEnv { closeErr := some "downstream close failed" }).ProcessClose
            0 emptyCtx (some (demoConnection "1" none))).1 ∧
      (forwarderClose (scriptEnv { closeErr := some "downstream close failed" }) emptyCtx
        { world := 0, log := [], request := demoRequest (demoMechanism "100"),
          clientConnection :=
            some (demoClientConnection ClientConnectionState.ClientConnectionReady ForwarderStateNone) }
        (some (demoConnection "1" none))).2.log
        = [Event.ProcessClose emptyCtx (some (demoConnection "1" none))
            ((scriptEnv { closeErr := some "downstream close failed" }).ProcessClose
              0 emptyCtx (some (demoConnection "1" none))).1.2] ++ [] ∧
      (forwarderClose (scriptEnv { closeErr := some "downstream close failed" }) emptyCtx
        { world := 0, log := [], request := demoRequest (demoMechanism "100"),
          clientConnection :=
            some (demoClientConnection ClientConnectionState.ClientConnectionReady ForwarderStateNone) }
        (some (demoConnection "1" none))).2.clientConnection
        = some (demoClientConnection ClientConnectionState.ClientConnectionReady ForwarderStateNone) :=
  C9_close_idempotent (scriptEnv { closeErr := some "downstream close failed" }) emptyCtx
    { world := 0, log := [], request := demoRequest (demoMechanism "100"),
      clientConnection :=
        some (demoClientConnection ClientConnectionState.ClientConnectionReady ForwarderStateNone) }
    (demoClientConnection ClientConnectionState.ClientConnectionReady ForwarderStateNone)
    (some (demoConnection "1" none)) rfl rfl

/-- C10: for every tracked `ClientConnection` whose `ForwarderState` is not
`ForwarderStateNone` and every downstream result, `forwarderService.Close` calls
`ProcessClose` first (it is the oldest entry the call adds to the log) and returns
exactly its value and error, whatever the forwarder-side close does; afterwards the
tracked connection is the one before the call with `ForwarderState` set to
`ForwarderStateNone` if both `ForwarderConnection` and the forwarder client's `Close`
succeeded, and it is unchanged if either of them failed. -/
theorem C10_close_forwarder {W : Type} (env : Env W) (ctx : Ctx) (st : FwdState W)
    (cc : ClientConnection) (conn : Option Connection)
    (hcc : st.clientConnection = some cc)
    (hstate : cc.ForwarderState ≠ ForwarderStateNone) :
    (forwarderClose env ctx st conn).1
        = Outcome.returned (env.ProcessClose st.world ctx conn).1 ∧
      (∃ later, (forwarderClose env ctx st conn).2.log
        = later ++ Event.ProcessClose ctx conn (env.ProcessClose st.world ctx conn).1.2 :: st.log) ∧
      (∀ client g,
        (env.ForwarderConnection (env.ProcessClose st.world ctx conn).2
          (env.GetForwarder (env.ProcessClose st.world ctx conn).2 cc.ForwarderRegisteredName)).1
          = Result.ok (client, g) →
        (env.ClientClose
          (env.ForwarderConnection (env.ProcessClose st.world ctx conn).2
            (env.GetForwarder (env.ProcessClose st.world ctx conn).2 cc.ForwarderRegisteredName)).2
          client cc.Xcon).1 = none →
        (forwarderClose env ctx st conn).2.clientConnection
          = some { cc with ForwarderState := ForwarderStateNone }) ∧
      (∀ err,
        (env.ForwarderConnection (env.ProcessClose st.world ctx conn).2
          (env.GetForwarder (env.ProcessClose st.world ctx conn).2 cc.ForwarderRegisteredName)).1
          = Result.error err →
        (forwarderClose env ctx st conn).2.clientConnection = some cc) ∧
      (∀ client g err,
        (env.ForwarderConnection (env.ProcessClose st.world ctx conn).2
          (env.GetForwarder (env.ProcessClose st.world ctx conn).2 cc.ForwarderRegisteredName)).1
          = Result.ok (client, g) →
        (env.ClientClose
          (env.ForwarderConnection (env.ProcessClose st.world ctx conn).2
            (env.GetForwarder (env.ProcessClose st.world ctx conn).2 cc.ForwarderRegisteredName)).2
          client cc.Xcon).1 = some err →
        (forwarderClose env ctx st conn).2.clientConnection = some cc) := by
  refine ⟨by simp [forwarderClose, hcc], ?_, ?_, ?_, ?_⟩
  · simp only [forwarderClose, hcc, performClose, hstate, ne_eq, not_false_eq_true, if_true]
    split
    · exact ⟨[_], rfl⟩
    · rename_i client g hfc
      split
      · cases g with
        | none => exact ⟨[_, _], rfl⟩
        | some g => exact ⟨[_, _, _], rfl⟩
      · cases g with
        | none => exact ⟨[_, _], rfl⟩
        | some g => exact ⟨[_, _, _], rfl⟩
  · intro client g hfc hclose
    simp only [forwarderClose, hcc, performClose, hstate, ne_eq, not_false_eq_true, if_true,
      hfc, hclose]
    cases g <;> rfl
  · intro err hfc
    simp only [forwarderClose, hcc, performClose, hstate, ne_eq, not_false_eq_true, if_true,
      hfc]
  · intro client g err hfc hclose
    simp only [forwarderClose, hcc, performClose, hstate, ne_eq, not_false_eq_true, if_true,
      hfc, hclose]
    cases g <;> rfl

/-- Witness of C10: a tracked connection with a forwarder programmed, a downstream close
that fails and a forwarder-side close that succeeds. -/
theorem C10_close_forwarder_witness :
    (forwarderClose (scriptEnv { closeErr := some "downstream close failed" }) emptyCtx
        { world := 0, log := [], request := demoRequest (demoMechanism "100"),
          clientConnection :=
            some (demoClientConnection ClientConnectionState.ClientConnectionReady ForwarderStateReady) }
        (some (demoConnection "1" none))).1
        = Outcome.returned ((scriptEnv { closeErr := some "downstream close failed" }).ProcessClose 0 emptyCtx (some (demoConnection "1" none))).1 ∧
      (∃ later, (forwarderClose (scriptEnv { closeErr := some "downstream close failed" }) emptyCtx
        { world := 0, log := [], request := demoRequest (demoMechanism "100"),
          clientConnection :=
            some (demoClientConnection ClientConnectionState.ClientConnectionReady ForwarderStateReady) }
        (some (demoConnection "1" none))).2.log
        = later ++ Event.ProcessClose emptyCtx (some (demoConnection "1" none))
            ((scriptEnv { closeErr := some "downstream close failed" }).ProcessClose 0 emptyCtx (some (demoConnection "1" none))).1.2 :: []) ∧
      (∀ client g,
        ((scriptEnv { closeErr := some "downstream close failed" }).ForwarderConnection ((scriptEnv { closeErr := some "downstream close failed" }).ProcessClose 0 emptyCtx (some (demoConnection "1" none))).2
          ((scriptEnv { closeErr := some "downstream close failed" }).GetForwarder ((scriptEnv { closeErr := some "downstream close failed" }).ProcessClose 0 emptyCtx (some (demoConnection "1" none))).2
            (demoClientConnection ClientConnectionState.ClientConnectionReady ForwarderStateReady).ForwarderRegisteredName)).1 = Result.ok (client, g) →
        ((scriptEnv { closeErr := some "downstream close failed" }).ClientClose ((scriptEnv { closeErr := some "downstream close failed" }).ForwarderConnection ((scriptEnv { closeErr := some "downstream close failed" }).ProcessClose 0 emptyCtx (some (demoConnection "1" none))).2
          ((scriptEnv { closeErr := some "downstream close failed" }).GetForwarder ((scriptEnv { closeErr := some "downstream close failed" }).ProcessClose 0 emptyCtx (some (demoConnection "1" none))).2
            (demoClientConnection ClientConnectionState.ClientConnectionReady ForwarderStateReady).ForwarderRegisteredName)).2 client (demoClientConnection ClientConnectionState.ClientConnectionReady ForwarderStateReady).Xcon).1 = none →
        (forwarderClose (scriptEnv { closeErr := some "downstream close failed" }) emptyCtx
        { world := 0, log := [], request := demoRequest (demoMechanism "100"),
          clientConnection :=
            some (demoClientConnection ClientConnectionState.ClientConnectionReady ForwarderStateReady) }
        (some (demoConnection "1" none))).2.clientConnection
          = some { (demoClientConnection ClientConnectionState.ClientConnectionReady ForwarderStateReady) with ForwarderState := ForwarderStateNone }) ∧
      (∀ err,
        ((scriptEnv { closeErr := some "downstream close failed" }).ForwarderConnection ((scriptEnv { closeErr := some "downstream close failed" }).ProcessClose 0 emptyCtx (some (demoConnection "1" none))).2
          ((scriptEnv { closeErr := some "downstream close failed" }).GetForwarder ((scriptEnv { closeErr := some "downstream close failed" }).ProcessClose 0 emptyCtx (some (demoConnection "1" none))).2
            (demoClientConnection ClientConnectionState.ClientConnectionReady ForwarderStateReady).ForwarderRegisteredName)).1 = Result.error err →
        (forwarderClose (scriptEnv { closeErr := some "downstream close failed" }) emptyCtx
        { world := 0, log := [], request := demoRequest (demoMechanism "100"),
          clientConnection :=
            some (demoClientConnection ClientConnectionState.ClientConnectionReady ForwarderStateReady) }
        (some (demoConnection "1" none))).2.clientConnection = some (demoClientConnection ClientConnectionState.ClientConnectionReady ForwarderStateReady)) ∧
      (∀ client g err,
        ((scriptEnv { closeErr := some "downstream close failed" }).ForwarderConnection ((scriptEnv { closeErr := some "downstream close failed" }).ProcessClose 0 emptyCtx (some (demoConnection "1" none))).2
          ((scriptEnv { closeErr := some "downstream close failed" }).GetForwarder ((scriptEnv { closeErr := some "downstream close failed" }).ProcessClose 0 emptyCtx (some (demoConnection "1" none))).2
            (demoClientConnection ClientConnectionState.ClientConnectionReady ForwarderStateReady).ForwarderRegisteredName)).1 = Result.ok (client, g) →
        ((scriptEnv { closeErr := some "downstream close failed" }).ClientClose ((scriptEnv { closeErr := some "downstream close failed" }).ForwarderConnection ((scriptEnv { closeErr := some "downstream close failed" }).ProcessClose 0 emptyCtx (some (demoConnection "1" none))).2
          ((scriptEnv { closeErr := some "downstream close failed" }).GetForwarder ((scriptEnv { closeErr := some "downstream close failed" }).ProcessClose 0 emptyCtx (some (demoConnection "1" none))).2
            (demoClientConnection ClientConnectionState.ClientConnectionReady ForwarderStateReady).ForwarderRegisteredName)).2 client (demoClientConnection ClientConnectionState.ClientConnectionReady ForwarderStateReady).Xcon).1 = some err →
        (forwarderClose (scriptEnv { closeErr := some "downstream close failed" }) emptyCtx
        { world := 0, log := [], request := demoRequest (demoMechanism "100"),
          clientConnection :=
            some (demoClientConnection ClientConnectionState.ClientConnectionReady ForwarderStateReady) }
        (some (demoConnection "1" none))).2.clientConnection = some (demoClientConnection ClientConnectionState.ClientConnectionReady ForwarderStateReady)) :=
  C10_close_forwarder (scriptEnv { closeErr := some "downstream close failed" }) emptyCtx
    { world := 0, log := [], request := demoRequest (demoMechanism "100"),
          clientConnection :=
            some (demoClientConnection ClientConnectionState.ClientConnectionReady ForwarderStateReady) }
    (demoClientConnection ClientConnectionState.ClientConnectionReady ForwarderStateReady) (some (demoConnection "1" none)) rfl (by decide)

/-! ## The forwarder domain -/

theorem Forwarder.clone_some (f : Forwarder) : Forwarder.clone (some f) = some f := by
  cases f
  rfl

/-- The scan of `SelectForwarder` leaves in `rv` the first accepted forwarder of the
bindings it walks. -/
theorem kvRangeFrom_select (forwarderSelector : Option (Forwarder → Bool))
    (l : List (String × Forwarder)) :
    baseDomain.kvRangeFrom
        (fun _ fwd rv => if accepts forwarderSelector fwd then (false, some fwd) else (true, rv))
        l none
      = (l.find? (fun kv => accepts forwarderSelector kv.2)).map Prod.snd := by
  induction l with
  | nil => rfl
  | cons kv rest ih =>
    obtain ⟨key, value⟩ := kv
    simp only [baseDomain.kvRangeFrom, Forwarder.clone_some, List.find?_cons]
    cases h : accepts forwarderSelector value with
    | true => simp
    | false => simpa using ih

theorem forwarderHeap.clone_allocates (s : forwarderHeap) (a : Nat) :
    (s.clone (some a)).1 = some s.size ∧ (s.clone (some a)).2.size = s.size + 1 ∧
      (s.clone (some a)).2.innerMap = s.innerMap ∧
      (s.clone (some a)).2.objects s.size = s.objects a ∧
      ∀ b, b ≠ s.size → (s.clone (some a)).2.objects b = s.objects b := by
  refine ⟨rfl, rfl, rfl, ?_, ?_⟩
  · simp [forwarderHeap.clone, forwarderHeap.new]
  · intro b hb
    simp [forwarderHeap.clone, forwarderHeap.new, hb]

/-- What `AddForwarder` does to the memory: one object is allocated, at the first free
address, with the content of the caller's object; that address is bound to the name; the
objects that were allocated before are untouched. -/
theorem forwarderHeap.AddForwarder_spec (s : forwarderHeap) (p : Nat) :
    (s.AddForwarder p).size = s.size + 1 ∧
      (s.AddForwarder p).innerMap = ((s.objects p).RegisteredName, s.size) ::
        s.innerMap.filter (fun kv => decide (kv.1 ≠ (s.objects p).RegisteredName)) ∧
      (s.AddForwarder p).objects s.size = s.objects p ∧
      ∀ b, b ≠ s.size → (s.AddForwarder p).objects b = s.objects b := by
  obtain ⟨h1, h2, h3, h4, h5⟩ := s.clone_allocates p
  refine ⟨?_, ?_, ?_, ?_⟩
  · simp only [forwarderHeap.AddForwarder, forwarderHeap.store, h1]
    exact h2
  · simp only [forwarderHeap.AddForwarder, forwarderHeap.store, h1, h3]
  · simp only [forwarderHeap.AddForwarder, forwarderHeap.store, h1]
    exact h4
  · intro b hb
    simp only [forwarderHeap.AddForwarder, forwarderHeap.store, h1]
    exact h5 b hb

/-- What `GetForwarder` does on a name that is bound to the address `a`: one object is
allocated, at the first free address, with the content of the stored object, and its
address is returned; the map and the objects that were allocated before are untouched. -/
theorem forwarderHeap.GetForwarder_spec (s : forwarderHeap) (name : String) (a : Nat)
    (h : s.innerMap.lookup name = some a) :
    (s.GetForwarder name).1 = some s.size ∧ (s.GetForwarder name).2.size = s.size + 1 ∧
      (s.GetForwarder name).2.innerMap = s.innerMap ∧
      (s.GetForwarder name).2.objects s.size = s.objects a ∧
      ∀ b, b ≠ s.size → (s.GetForwarder name).2.objects b = s.objects b := by
  obtain ⟨h1, h2, h3, h4, h5⟩ := s.clone_allocates a
  simp only [forwarderHeap.GetForwarder, forwarderHeap.load, h, h1]
  exact ⟨trivial, h2, h3, h4, h5⟩

/-- The methods on pointers refine the methods on values: on a memory in which every
bound address is allocated, `AddForwarder` of the allocated object at `p` leaves a memory
that holds the forwarder domain `AddForwarder` gives on the values, and every bound
address is still allocated. -/
theorem forwarderHeap.values_AddForwarder (s : forwarderHeap) (p : Nat)
    (hwf : s.WellFormed) :
    (s.AddForwarder p).values = s.values.AddForwarder (s.objects p) ∧
      (s.AddForwarder p).WellFormed := by
  obtain ⟨a1, a2, a3, a4⟩ := s.AddForwarder_spec p
  constructor
  · simp only [forwarderHeap.values, forwarderDomain.AddForwarder, baseDomain.store,
      Forwarder.clone_some, a2, List.map_cons, a3, List.filter_map]
    congr 3
    apply List.map_congr_left
    intro kv hkv
    have hlt : kv.2 < s.size := hwf kv (List.mem_of_mem_filter hkv)
    rw [a4 kv.2 (Nat.ne_of_lt hlt)]
  · intro kv hkv
    rw [a2] at hkv
    rw [a1]
    rcases List.mem_cons.1 hkv with heq | hmem
    · rw [heq]
      exact Nat.lt_succ_self _
    · exact Nat.lt_succ_of_lt (hwf kv (List.mem_of_mem_filter hmem))

/-- The methods on pointers refine the methods on values: on a memory in which every
bound address is allocated, the object at the pointer `GetForwarder` returns is the
forwarder that `GetForwarder` returns on the values (nil for nil), and the memory holds
the same forwarder domain afterwards. -/
theorem forwarderHeap.values_GetForwarder (s : forwarderHeap) (name : String)
    (hwf : s.WellFormed) :
    (s.GetForwarder name).1.map (s.GetForwarder name).2.objects = s.values.GetForwarder name ∧
      (s.GetForwarder name).2.values = s.values := by
  have hval : s.values.GetForwarder name = (s.innerMap.lookup name).map s.objects := by
    simp only [forwarderHeap.values, forwarderDomain.GetForwarder, baseDomain.load]
    induction s.innerMap with
    | nil => rfl
    | cons kv rest ih =>
      obtain ⟨k, a⟩ := kv
      by_cases hk : name = k
      · subst hk
        simp [List.lookup, Forwarder.clone_some]
      · have hbeq : (name == k) = false := by simpa using hk
        simp only [List.map_cons, List.lookup, hbeq]
        exact ih
  cases hl : s.innerMap.lookup name with
  | none =>
    rw [hval, hl]
    simp [forwarderHeap.GetForwarder, forwarderHeap.load, hl]
  | some a =>
    obtain ⟨g1, g2, g3, g4, g5⟩ := s.GetForwarder_spec name a hl
    rw [hval, hl, g1]
    refine ⟨by simp [g4], ?_⟩
    simp only [forwarderHeap.values, g3]
    congr 2
    apply List.map_congr_left
    intro kv hkv
    have hlt : kv.2 < s.size := hwf kv hkv
    rw [g5 kv.2 (Nat.ne_of_lt hlt)]

/-- C12: for every forwarder domain and every predicate `p` (nil or not): if some stored
forwarder satisfies `p`, `SelectForwarder(p)` returns a nil error and a stored forwarder
that satisfies `p`; if no stored forwarder satisfies `p` (as in the empty domain), it
returns a nil forwarder and the error `no appropriate forwarders found`; with `p = nil`
on a domain that is not empty it returns some stored forwarder and a nil error. -/
theorem C12_select_forwarder (d : forwarderDomain) (p : Option (Forwarder → Bool)) :
    ((∃ kv ∈ d.base.innerMap, accepts p kv.2 = true) →
      ∃ f, d.SelectForwarder p = (some f, none) ∧ accepts p f = true ∧
        ∃ k, (k, f) ∈ d.base.innerMap) ∧
    ((∀ kv ∈ d.base.innerMap, accepts p kv.2 = false) →
      d.SelectForwarder p = (none, some "no appropriate forwarders found")) ∧
    (p = none → d.base.innerMap ≠ [] →
      ∃ f, d.SelectForwarder p = (some f, none) ∧ ∃ k, (k, f) ∈ d.base.innerMap) := by
  have hsel : d.SelectForwarder p =
      match (d.base.innerMap.find? (fun kv => accepts p kv.2)).map Prod.snd with
      | none => (none, some "no appropriate forwarders found")
      | some fwd => (some fwd, none) := by
    simp only [forwarderDomain.SelectForwarder, baseDomain.kvRange, kvRangeFrom_select]
  have hfound : (∃ kv ∈ d.base.innerMap, accepts p kv.2 = true) →
      ∃ f, d.SelectForwarder p = (some f, none) ∧ accepts p f = true ∧
        ∃ k, (k, f) ∈ d.base.innerMap := by
    rintro ⟨kv, hmem, hacc⟩
    cases hfind : d.base.innerMap.find? (fun kv => accepts p kv.2) with
    | none =>
      have := List.find?_eq_none.1 hfind kv hmem
      simp [hacc] at this
    | some kv1 =>
      refine ⟨kv1.2, ?_, ?_, kv1.1, ?_⟩
      · rw [hsel, hfind]
        rfl
      · simpa using List.find?_some hfind
      · exact List.mem_of_find?_eq_some hfind
  refine ⟨hfound, ?_, ?_⟩
  · intro hnone
    have hfind : d.base.innerMap.find? (fun kv => accepts p kv.2) = none := by
      rw [List.find?_eq_none]
      intro kv hmem
      simp [hnone kv hmem]
    rw [hsel, hfind]
    rfl
  · intro hp hne
    subst hp
    cases hl : d.base.innerMap with
    | nil => exact absurd hl hne
    | cons kv rest =>
      obtain ⟨f, h1, -, h3⟩ := hfound ⟨kv, by rw [hl]; exact List.mem_cons_self _ _, rfl⟩
      rw [hl] at h3
      exact ⟨f, h1, h3⟩

/-- Witness of C12: on the domain with `fwd0`, `fwd1`, `fwd2` the selector for
`/socket-1` finds a forwarder, the selector that refuses everything finds none, and the
nil selector finds one. -/
theorem C12_select_forwarder_witness :
    (∃ f, demoDomain.SelectForwarder (some (fun f => decide (f.SocketLocation = "/socket-1")))
          = (some f, none) ∧
        accepts (some (fun f => decide (f.SocketLocation = "/socket-1"))) f = true ∧
        ∃ k, (k, f) ∈ demoDomain.base.innerMap) ∧
    demoDomain.SelectForwarder (some (fun _ => false))
      = (none, some "no appropriate forwarders found") ∧
    (∃ f, demoDomain.SelectForwarder none = (some f, none) ∧
      ∃ k, (k, f) ∈ demoDomain.base.innerMap) :=
  ⟨(C12_select_forwarder demoDomain
      (some (fun f => decide (f.SocketLocation = "/socket-1")))).1
      ⟨("fwd1", demoForwarder "1"), by decide, by decide⟩,
    (C12_select_forwarder demoDomain (some (fun _ => false))).2.1 (fun _ _ => rfl),
    (C12_select_forwarder demoDomain none).2.2 rfl (by decide)⟩

/-! ## The endpoint selector: the context on the fast path -/

/-- C13, as the claim states it, fails: a healing connection whose tracked destination
carries the context `dst-context`, and a request with the tracked network service name
and the tracked source context `ip-context`.  `Request` takes the fast path and returns
the request's connection; afterwards the tracked destination still carries
`dst-context`, not the context the request's connection had on entry, and it is the
request's connection that now carries `dst-context`. -/
theorem C13_destination_context_not_written :
    GetContext (demoRequest (demoMechanism "100")).Connection = some ⟨"ip-context"⟩ ∧
    (Request (scriptEnv {}) 5 emptyCtx 0 (demoRequest (demoMechanism "100"))
        (some (healingConnection "dst-context")) []).1
      = Outcome.returned (ConnRef.requestConnection, none) ∧
    (Request (scriptEnv {}) 5 emptyCtx 0 (demoRequest (demoMechanism "100"))
        (some (healingConnection "dst-context")) []).2.map
        (fun st => st.clientConnection.Xcon.Destination.Context)
      = some (some ⟨"dst-context"⟩) ∧
    (Request (scriptEnv {}) 5 emptyCtx 0 (demoRequest (demoMechanism "100"))
        (some (healingConnection "dst-context")) []).2.map
        (fun st => GetContext st.request.Connection)
      = some (some ⟨"dst-context"⟩) := by
  decide

/-- C13, amended: on the healing fast path of `Request` (Healing state, the tracked
network service name, re-selection not required, tracked destination connection
complete, a request that carries a connection) the context goes from the tracked
connection to the request: when `Request` returns, the destination side of the tracked
connection, and so its context, is what it was on entry, and the request's connection is
what `UpdateContext`, called on it with the tracked destination's context, left. -/
theorem C13_fast_path_context {W : Type} (env : Env W) (bound : Nat) (ctx : Ctx) (w : W)
    (request : NetworkServiceRequest) (conn : Connection) (cc : ClientConnection)
    (ignoreEndpoints : IgnoreMap)
    (hconn : request.Connection = some conn)
    (hheal : cc.ConnectionState = ClientConnectionState.ClientConnectionHealing)
    (hns : conn.NetworkService = cc.NetworkService)
    (hneed : checkNeedNSERequest env request cc = false)
    (hcomplete : env.IsComplete cc.Xcon.Destination = none) :
    ∃ r st, Request env bound ctx w request (some cc) ignoreEndpoints
        = (Outcome.returned r, some st) ∧
      st.clientConnection.Xcon.Destination = cc.Xcon.Destination ∧
      st.request.Connection = some (env.UpdateContext conn cc.Xcon.Destination.Context).1 := by
  have hcheck : checkNSEUpdateIsRequired env ctx (SelState.init w request cc ignoreEndpoints)
      = (false, SelState.init w request cc ignoreEndpoints) := by
    simp [checkNSEUpdateIsRequired, SelState.init, hheal, hconn, GetNetworkService, hns, hneed]
  simp only [Request, RequestBound, hcheck]
  simp only [SelState.init, hheal, true_and, if_true, checkUpdateConnectionContext, hconn,
    updateConnectionContext, hcomplete]
  cases hupd : (env.UpdateContext conn cc.Xcon.Destination.Context).2 with
  | some err => exact ⟨_, _, rfl, rfl, rfl⟩
  | none =>
    by_cases hlocal : env.IsLocalEndpoint w cc.Endpoint = true
    · simp only [hlocal, Bool.not_true, Bool.false_eq_true, if_false]
      exact ⟨_, _, rfl, rfl, rfl⟩
    · simp only [hlocal, Bool.not_eq_true, Bool.not_false, if_true]
      exact ⟨_, _, rfl, rfl, rfl⟩

/-- Witness of C13: the scripted world, the healing connection with `dst-context` on its
destination and the request with the tracked values. -/
theorem C13_fast_path_context_witness :
    ∃ r st, Request (scriptEnv {}) 5 emptyCtx 0 (demoRequest (demoMechanism "100"))
        (some (healingConnection "dst-context")) []
        = (Outcome.returned r, some st) ∧
      st.clientConnection.Xcon.Destination = (healingConnection "dst-context").Xcon.Destination ∧
      st.request.Connection = some ((scriptEnv {}).UpdateContext (demoConnection "1" none)
        (healingConnection "dst-context").Xcon.Destination.Context).1 :=
  C13_fast_path_context (scriptEnv {}) 5 emptyCtx 0 (demoRequest (demoMechanism "100"))
    (demoConnection "1" none) (healingConnection "dst-context") []
    rfl rfl rfl (by decide) rfl

/-! ## The endpoint selector: the error of a first failed selection -/

/-- C14 fails on the code: on a request whose first endpoint selection fails with the
error `no endpoint left`, with no earlier attempt (the only outside call of `Request` is
that `GetEndpoint`), `Request` returns a nil connection and the error
`NSM:(7.1.5) <nil>. Last NSE Error: no endpoint left`, not the selection error itself:
`combineErrors` is called with its two error arguments exchanged, so that its test of
`lastError` looks at the selection error. -/
theorem C14_first_selection_error_reworded :
    Request (scriptEnv {}) 5 emptyCtx 0 (demoRequest (demoMechanism "100"))
        (some (demoClientConnection ClientConnectionState.ClientConnectionReady 0)) []
      = (Outcome.returned
          (ConnRef.null, some "NSM:(7.1.5) <nil>. Last NSE Error: no endpoint left"),
        some { world := 1,
               log := [Event.GetEndpoint (some (demoConnection "1" none)) []
                 (Result.error "no endpoint left")],
               request := demoRequest (demoMechanism "100"),
               clientConnection := demoClientConnection ClientConnectionState.ClientConnectionReady 0,
               ignoreEndpoints := [], lastError := none }) ∧
    ((scriptEnv {}).GetEndpoint 0 (some (demoConnection "1" none)) []).1
      = Result.error "no endpoint left" ∧
    ("NSM:(7.1.5) <nil>. Last NSE Error: no endpoint left" : String) ≠ "no endpoint left" := by
  decide

/-! ## The listeners of the model -/

/-- A listener that is not a key of the map makes `RemoveListener` panic. -/
theorem RemoveListener_unregistered (m : listenerModel) (listener : Listener)
    (h : m.listeners.lookup listener = none) :
    RemoveListener m listener = (Outcome.panicked, m) := by
  simp [RemoveListener, h]

/-- C15 fails on the code: on the model that `NewModel()` returns, where no listener is
registered, and also after listener 1 was added and removed, `RemoveListener` of
listener 1 does not return normally: it stops on the call of the nil deleter.  (The set
of registered listeners is as before in both cases: `ListenerCount` is 0.) -/
theorem C15_RemoveListener_unregistered_panics :
    RemoveListener NewModel 1 = (Outcome.panicked, NewModel) ∧
    (RemoveListener (AddListener NewModel 1) 1).1 = Outcome.returned () ∧
    (RemoveListener (RemoveListener (AddListener NewModel 1) 1).2 1).1 = Outcome.panicked ∧
    ListenerCount NewModel = 0 ∧
    ListenerCount (RemoveListener (AddListener NewModel 1) 1).2 = 0 := by
  decide

/-! ## The ID generator on an id that does not parse -/

theorem parseLoop_syntax_value (l : List Char) (n : Nat)
    (h : (parseLoop l n).2 = some NumError.ErrSyntax) : (parseLoop l n).1 = 0 := by
  induction l generalizing n with
  | nil => simp [parseLoop] at h
  | cons c cs ih =>
    cases hd : digitValue c with
    | none => simp only [parseLoop, hd]
    | some d =>
      by_cases h2 : 16 ≤ d
      · simp only [parseLoop, hd, if_pos h2]
      · by_cases h3 : maxUint64 / 16 + 1 ≤ n
        · simp only [parseLoop, hd, if_neg h2, if_pos h3] at h
          cases h
        · by_cases h4 : (n * 16 % 2 ^ 64 + d) % 2 ^ 64 < n * 16 % 2 ^ 64 ∨
              maxUint64 < (n * 16 % 2 ^ 64 + d) % 2 ^ 64
          · simp only [parseLoop, hd, if_neg h2, if_neg h3, if_pos h4] at h
            cases h
          · simp only [parseLoop, hd, if_neg h2, if_neg h3, if_neg h4] at h ⊢
            exact ih _ h

/-- An id that `ParseUint` refuses with `ErrSyntax` (a character that is no hexadecimal
digit before any overflow, or the empty string) leaves the model as it was. -/
theorem CorrectIDGenerator_syntax_error (m : model) (id : String)
    (h : (ParseUint id).2 = some NumError.ErrSyntax) : m.CorrectIDGenerator id = m := by
  have hv : (ParseUint id).1 = 0 := by
    unfold ParseUint at h ⊢
    split
    · rfl
    · rename_i hne
      rw [if_neg hne] at h
      exact parseLoop_syntax_value _ _ h
  simp [model.CorrectIDGenerator, hv]

/-- C16 fails on the code: with the counter at 5 the id `10000000000000000` (seventeen
hexadecimal digits, too large for 64 bits) does not parse (`ParseUint` returns
`2^64 - 1` next to `ErrRange`), and `CorrectIDGenerator` goes on after logging: the
counter becomes `2^64 - 1` and the next `ConnectionID` result is `0`, where without the
call it is `6`. -/
theorem C16_CorrectIDGenerator_range_error :
    ParseUint "10000000000000000" = (maxUint64, some NumError.ErrRange) ∧
    ((model.mk 5).CorrectIDGenerator "10000000000000000").lastConnectionID = 2 ^ 64 - 1 ∧
    ((model.mk 5).CorrectIDGenerator "10000000000000000").ConnectionID.1 = "0" ∧
    (model.mk 5).ConnectionID.1 = "6" := by
  decide

end Nsmd
